import Mathlib

/-!
Verification of the Larga story-tracker server.

This file gives a shallow embedding, in Lean, of the parts of the
Larga code base (an Express/Node HTTP server plus its document-type
taxonomy module) that the specification's claims are about:

* the keyword classifier `classifyDocument` and its taxonomy data,
* the text-extraction dispatcher `extractTextFromFile`,
* the filename date parser `parseDocumentDate`,
* the heuristic analyzers (`extractSections`, `extractThemes`, the
  deprecated `extractCharacters`),
* the AI subsystem's prompt-slot/model selection
  (`analyzeContentWithAI`, `classifyDocumentWithAI`),
* the upload, analyze, character-removal, compare and story-grid
  request handlers.

JavaScript strings are modelled as Lean `String`s; the embedding of
`toLowerCase`/`toUpperCase`/`trim`/`\s` is faithful for ASCII text
(all taxonomy keywords and all inputs considered in the theorems are
ASCII).  External effects (filesystem reads, the diff library, the
LLM gateway) are modelled as explicit environment parameters, and
fallible operations return `Except`.
-/

namespace Larga

/-! ### JavaScript string primitives -/

/-- The `\s` character class of JavaScript regular expressions,
restricted to ASCII: space, tab, newline, carriage return, vertical
tab, form feed. -/
def isJsSpace (c : Char) : Bool :=
  c = ' ' || c = '\t' || c = '\n' || c = '\r' || c.toNat = 11 || c.toNat = 12

/-- Splitting on runs of whitespace (`String.prototype.split(/\s+/)`),
dropping empty tokens.  (The JS call can additionally produce one empty
leading token when the text starts with whitespace; every use in the
source either filters tokens by positive length or discards tokens
shorter than 3 characters, so that token is irrelevant.) -/
def jsWordsAux : List Char → List Char → List String
  | [], cur => if cur.isEmpty then [] else [String.mk cur.reverse]
  | c :: rest, cur =>
    if isJsSpace c then
      if cur.isEmpty then jsWordsAux rest [] else String.mk cur.reverse :: jsWordsAux rest []
    else
      jsWordsAux rest (c :: cur)

def jsWords (s : String) : List String := jsWordsAux s.data []

/-- `text.split(/\s+/).filter(w => w.length > 0).length`, the whitespace
word count used throughout the server. -/
def jsWordCount (s : String) : Nat :=
  ((jsWords s).filter (fun w => decide (0 < w.length))).length

/-- `String.prototype.toLowerCase()` (ASCII-faithful). -/
def jsToLower (s : String) : String := String.mk (s.data.map Char.toLower)

/-- `String.prototype.toUpperCase()` (ASCII-faithful). -/
def jsToUpper (s : String) : String := String.mk (s.data.map Char.toUpper)

/-- Does `pat` occur as a contiguous run inside `hay`?  (Character-list
core of `String.prototype.includes`.) -/
def charsContain (pat : List Char) : List Char → Bool
  | [] => pat.isEmpty
  | c :: rest => pat.isPrefixOf (c :: rest) || charsContain pat rest

/-- `hay.includes(pat)`. -/
def strContains (hay pat : String) : Bool := charsContain pat.data hay.data

/-- `s.endsWith(suf)`. -/
def strEndsWith (s suf : String) : Bool := suf.data.isSuffixOf s.data

/-- `String.prototype.trim()` (ASCII-faithful). -/
def jsTrim (s : String) : String :=
  String.mk (((s.data.dropWhile isJsSpace).reverse.dropWhile isJsSpace).reverse)

/-- `s.substring(0, n)` / `s.slice(0, n)` for `0 ≤ n`. -/
def strTake (s : String) (n : Nat) : String := String.mk (s.data.take n)

/-- Global replacement of a literal pattern
(`String.prototype.replace(/pat/g, rep)` for a pattern without regex
metacharacters); scanning resumes after each replaced occurrence. -/
def replaceAllCh (pat rep : List Char) : List Char → List Char
  | [] => []
  | c :: rest =>
    if pat ≠ [] ∧ pat.isPrefixOf (c :: rest) = true then
      rep ++ replaceAllCh pat rep (rest.drop (pat.length - 1))
    else
      c :: replaceAllCh pat rep rest
  termination_by l => l.length
  decreasing_by
    · simp only [List.length_drop, List.length_cons]; omega
    · simp only [List.length_cons]; omega

def jsReplaceAll (s pat rep : String) : String :=
  String.mk (replaceAllCh pat.data rep.data s.data)

/-- `path.extname(filename)`: the substring from the last `.` to the
end, or `""` when there is no dot or the only dot is the leading
character. -/
def extname (filename : String) : String :=
  let revd := filename.data.reverse
  let pre := revd.takeWhile (fun c => c ≠ '.')
  if pre.length = revd.length then ""
  else if pre.length + 1 = revd.length then ""
  else String.mk ('.' :: pre.reverse)

/-- Truthiness of an optional JS string (`undefined`, `null` and `""`
are falsy). -/
def jsFalsyStr : Option String → Bool
  | none => true
  | some s => s == ""

/-- `opt || dflt` on JS strings. -/
def jsOrDefault (opt : Option String) (dflt : String) : String :=
  match opt with
  | none => dflt
  | some s => if s == "" then dflt else s

/-- Lexicographic comparison by character code, the order JS's default
string sort uses. -/
def jsStrLtCh : List Char → List Char → Bool
  | [], [] => false
  | [], _ :: _ => true
  | _ :: _, [] => false
  | c1 :: r1, c2 :: r2 =>
    if c1.toNat < c2.toNat then true
    else if c2.toNat < c1.toNat then false
    else jsStrLtCh r1 r2

def jsStrLe (a b : String) : Bool := !(jsStrLtCh b.data a.data)

/-- Insert into a sorted list, before the first element not strictly
smaller — a stable insertion. -/
def insertSorted (le : α → α → Bool) (x : α) : List α → List α
  | [] => [x]
  | y :: rest => if le x y then x :: y :: rest else y :: insertSorted le x rest

/-- `Array.prototype.sort(comparator)` (a stable sort, as the JS
runtime's), modelled by structurally recursive insertion sort. -/
def jsSortBy (le : α → α → Bool) : List α → List α
  | [] => []
  | x :: rest => insertSorted le x (jsSortBy le rest)

/-! ### Document-type taxonomy (document-types module)

Each entry of `DOCUMENT_TYPES` carries the fields the server consults:
display name, description, expected-content hints, the two keyword
lists, the typical word-count range and the priority integer (the
`color`/`textColor` styling strings are not modelled; no claim concerns
styling). -/

structure DocType where
  name : String
  description : String
  expectedContent : List String
  filenameKeywords : List String
  contentKeywords : List String
  wordCountMin : Nat
  wordCountMax : Nat
  priority : Nat
  isExternal : Bool := false
  isInternal : Bool := false
  needsAnalysis : Bool := false
  deriving DecidableEq, Repr

def DOCUMENT_TYPES : List (String × DocType) :=
  [ ("unclassified",
     { name := "Unclassified"
       description := "Document pending AI analysis for classification"
       expectedContent := []
       filenameKeywords := []
       contentKeywords := []
       wordCountMin := 0, wordCountMax := 999999, priority := 0
       needsAnalysis := true }),
    ("pitch",
     { name := "Pitch"
       description := "Full pitch document selling the series concept"
       expectedContent := ["Logline", "Tone/Genre", "Comparable shows/films",
         "Character descriptions", "World/setting description", "Series arc overview",
         "Episode ideas or season breakdown", "Why now/cultural relevance"]
       filenameKeywords := ["pitch", "treatment"]
       contentKeywords := ["logline", "tone", "comparable", "similar to", "genre"]
       wordCountMin := 1500, wordCountMax := 8000, priority := 1 }),
    ("shortPitch",
     { name := "Short Pitch"
       description := "Condensed pitch (1-3 pages) for quick reads"
       expectedContent := ["Logline", "Brief tone/genre", "Key characters (abbreviated)",
         "Core concept", "One-sentence series arc"]
       filenameKeywords := ["short pitch", "one sheet", "leave behind"]
       contentKeywords := ["logline", "in brief"]
       wordCountMin := 300, wordCountMax := 1500, priority := 2 }),
    ("beatSheet",
     { name := "Beat Sheet"
       description := "Scene-by-scene breakdown of episode or series"
       expectedContent := ["Act breaks", "Scene numbers", "Brief scene descriptions",
         "Character beats", "Plot progression", "Page counts per scene"]
       filenameKeywords := ["beat sheet", "beats"]
       contentKeywords := ["act", "scene", "beat", "teaser", "cold open", "tag"]
       wordCountMin := 1000, wordCountMax := 5000, priority := 2 }),
    ("outline",
     { name := "Outline"
       description := "Detailed story outline (more prose than beat sheet)"
       expectedContent := ["Act structure", "Scene descriptions in paragraph form",
         "Character motivations", "Dialogue snippets", "Emotional beats"]
       filenameKeywords := ["outline"]
       contentKeywords := ["act one", "act two", "act three", "opens with", "we see"]
       wordCountMin := 2000, wordCountMax := 10000, priority := 2 }),
    ("pilot",
     { name := "Pilot Script"
       description := "First episode screenplay"
       expectedContent := ["Screenplay formatting", "Scene headings (INT./EXT.)",
         "Action lines", "Character dialogue", "Transitions"]
       filenameKeywords := ["pilot", "episode 1", "ep1", "ep 1"]
       contentKeywords := ["int.", "ext.", "fade in", "fade out"]
       wordCountMin := 8000, wordCountMax := 15000, priority := 3 }),
    ("draft",
     { name := "Draft"
       description := "Script draft (any version/revision)"
       expectedContent := ["Screenplay formatting", "Scene headings", "Dialogue", "Action"]
       filenameKeywords := ["draft", "revision", "version", "v1", "v2", "v3"]
       contentKeywords := ["int.", "ext.", "fade"]
       wordCountMin := 8000, wordCountMax := 15000, priority := 3 }),
    ("trimmedDraft",
     { name := "Trimmed Draft"
       description := "Shortened version of script (for timing/budget)"
       expectedContent := ["Screenplay formatting", "Reduced scene count", "Condensed dialogue"]
       filenameKeywords := ["trimmed", "cut", "shortened"]
       contentKeywords := ["int.", "ext."]
       wordCountMin := 6000, wordCountMax := 12000, priority := 3 }),
    ("seriesDoc",
     { name := "Series Document"
       description := "Multi-episode arc planning (season or series)"
       expectedContent := ["Episode summaries", "Character arcs across episodes",
         "Seasonal themes", "Story engine", "Episode titles"]
       filenameKeywords := ["series", "season", "episodes", "multi-episode"]
       contentKeywords := ["episode", "season", "arc", "story engine"]
       wordCountMin := 3000, wordCountMax := 12000, priority := 2 }),
    ("characterBreakdown",
     { name := "Character Breakdown"
       description := "Detailed character analysis/descriptions"
       expectedContent := ["Character names", "Physical descriptions", "Backstories",
         "Motivations", "Relationships", "Character arcs"]
       filenameKeywords := ["character", "cast", "breakdown", "bios"]
       contentKeywords := ["protagonist", "antagonist", "backstory", "motivation"]
       wordCountMin := 1000, wordCountMax := 5000, priority := 2 }),
    ("worldBuilding",
     { name := "World Building"
       description := "Setting, rules, mythology documents"
       expectedContent := ["Setting descriptions", "World rules", "History/mythology",
         "Cultural details", "Visual references"]
       filenameKeywords := ["world", "setting", "universe", "mythology", "bible"]
       contentKeywords := ["setting", "world", "universe", "rules"]
       wordCountMin := 1000, wordCountMax := 8000, priority := 2 }),
    ("extraMaterials",
     { name := "Extra Materials"
       description := "Supporting materials (visual references, research, etc.)"
       expectedContent := ["Visual references", "Research notes", "Mood boards",
         "Supplementary info"]
       filenameKeywords := ["extra", "materials", "supplemental", "附加", "additional"]
       contentKeywords := []
       wordCountMin := 500, wordCountMax := 5000, priority := 1 }),
    ("notes",
     { name := "Notes"
       description := "External feedback from producers, agents, executives"
       expectedContent := ["Feedback points", "Questions", "Suggestions", "Concerns",
         "Praise", "Action items", "Attribution (who gave the notes)"]
       filenameKeywords := ["notes", "feedback", "comments", "response", "from"]
       contentKeywords := ["feedback", "notes", "concern", "question", "suggestion",
         "love", "confused"]
       wordCountMin := 100, wordCountMax := 3000, priority := 1
       isExternal := true }),
    ("sessionNotes",
     { name := "Session Notes"
       description := "Quick brainstorming/thinking session notes"
       expectedContent := ["Stream of consciousness", "Ideas", "Questions to self",
         "Quick thoughts", "Action items"]
       filenameKeywords := ["sesh", "session", "thinking", "thoughts", "ideas"]
       contentKeywords := ["idea", "what if", "maybe", "thought"]
       wordCountMin := 50, wordCountMax := 2000, priority := 2
       isInternal := true }),
    ("quickNote",
     { name := "Quick Note"
       description := "Very brief note (often just date in filename)"
       expectedContent := ["Brief thoughts", "Reminders", "Quick updates"]
       filenameKeywords := []
       contentKeywords := []
       wordCountMin := 10, wordCountMax := 500, priority := 0
       isInternal := true }),
    ("goldilocks",
     { name := "Goldilocks Version"
       description := "Just-right condensed version (not too long, not too short)"
       expectedContent := ["Balanced pitch", "Key details without bloat",
         "Ready for specific audience"]
       filenameKeywords := ["goldilocks", "just right"]
       contentKeywords := []
       wordCountMin := 1000, wordCountMax := 4000, priority := 2 }),
    ("toAggregate",
     { name := "To Aggregate"
       description := "Version prepared for aggregation/sharing with team"
       expectedContent := ["Polished content", "Ready for distribution", "Consolidated changes"]
       filenameKeywords := ["to aggregate", "toaggregate", "for aggregate"]
       contentKeywords := []
       wordCountMin := 1000, wordCountMax := 10000, priority := 1 }),
    ("forToday",
     { name := "For Today"
       description := "Version prepared for specific meeting/deadline"
       expectedContent := ["Meeting-ready content", "Targeted for specific audience/date"]
       filenameKeywords := ["for today", "for tomorrow", "for meeting"]
       contentKeywords := []
       wordCountMin := 500, wordCountMax := 8000, priority := 1 }),
    ("legal",
     { name := "Legal Document"
       description := "Contracts, agreements, legal paperwork"
       expectedContent := ["Legal language", "Terms and conditions", "Signatures",
         "Contract clauses"]
       filenameKeywords := ["agreement", "contract", "shopping", "attachment", "option",
         "docusign"]
       contentKeywords := ["agreement", "contract", "party", "terms", "whereas"]
       wordCountMin := 1000, wordCountMax := 20000, priority := 1
       isExternal := true }) ]

/-- Lookup in the taxonomy object; every key the classifier consults is
present, so the default is never reached on the classifier's path. -/
def getDocType (key : String) : DocType :=
  (DOCUMENT_TYPES.lookup key).getD
    { name := "", description := "", expectedContent := [], filenameKeywords := [],
      contentKeywords := [], wordCountMin := 0, wordCountMax := 0, priority := 0 }

/-- Classification priority order (highest to lowest); first match wins. -/
def CLASSIFICATION_ORDER : List String :=
  ["legal", "notes", "extraMaterials", "toAggregate", "forToday", "goldilocks",
   "shortPitch", "beatSheet", "outline", "seriesDoc", "characterBreakdown",
   "worldBuilding", "trimmedDraft", "pilot", "draft", "pitch", "sessionNotes",
   "quickNote"]

/-! ### Keyword classifier (`classifyDocument`) -/

/-- Does the filename, after stripping digits, dots, underscores,
whitespace and hyphens, have fewer than 10 characters left?
(`filename.replace(/[\d._\s-]/g, '').length < 10`). -/
def quickNoteResidue (filename : String) : Nat :=
  (filename.data.filter
    (fun c => !(c.isDigit || c = '.' || c = '_' || isJsSpace c || c = '-'))).length

/-- `/\d{6,8}/.test(s)`: is there a run of at least six consecutive
digits? -/
def sixDigitRun : List Char → Bool
  | c1 :: c2 :: c3 :: c4 :: c5 :: c6 :: rest =>
    (c1.isDigit && c2.isDigit && c3.isDigit && c4.isDigit && c5.isDigit && c6.isDigit) ||
    sixDigitRun (c2 :: c3 :: c4 :: c5 :: c6 :: rest)
  | _ => false

/-- One iteration of the classifier's loop body for type key `typeKey`:
`some` result means the loop returns that key.  Branches, in source
order: filename-keyword match; content-keyword match gated by the
type's minimum typical word count; the `quickNote` special case for
small date-named RTF files. -/
def classifyStep (filename lowerFilename lowerText : String) (wordCount : Nat)
    (typeKey : String) : Option String :=
  let type := getDocType typeKey
  if 0 < type.filenameKeywords.length &&
     type.filenameKeywords.any (fun keyword => strContains lowerFilename (jsToLower keyword)) then
    some typeKey
  else if 0 < type.contentKeywords.length &&
     type.contentKeywords.any (fun keyword => strContains lowerText (jsToLower keyword)) &&
     type.wordCountMin ≤ wordCount then
    some typeKey
  else if typeKey == "quickNote" && wordCount < 500 && strEndsWith filename ".rtf" &&
     sixDigitRun filename.data && quickNoteResidue filename < 10 then
    some "quickNote"
  else
    none

def classifyScan (filename lowerFilename lowerText : String) (wordCount : Nat) :
    List String → Option String
  | [] => none
  | typeKey :: rest =>
    match classifyStep filename lowerFilename lowerText wordCount typeKey with
    | some r => some r
    | none => classifyScan filename lowerFilename lowerText wordCount rest

/-- Fallback when no rule in the classification order matched. -/
def classifyFallback (wordCount : Nat) : String :=
  if wordCount < 500 then "quickNote"
  else if wordCount < 2000 then "sessionNotes"
  else "pitch"

/-- `classifyDocument(filename, text)` from the document-types module. -/
def classifyDocument (filename text : String) : String :=
  let lowerFilename := jsToLower filename
  let lowerText := jsToLower text
  let wordCount := jsWordCount text
  match classifyScan filename lowerFilename lowerText wordCount CLASSIFICATION_ORDER with
  | some k => k
  | none => classifyFallback wordCount

/-- The classification algorithm exactly as claim C1 words it: the same
keyword scan over the classification order, but with no special
`quickNote` rule for small date-named RTF files, followed by the same
word-count fallback.  (Definition written from the claim's words, for
comparison with `classifyDocument`.) -/
def claimStep (lowerFilename lowerText : String) (wordCount : Nat)
    (typeKey : String) : Option String :=
  let type := getDocType typeKey
  if 0 < type.filenameKeywords.length &&
     type.filenameKeywords.any (fun keyword => strContains lowerFilename (jsToLower keyword)) then
    some typeKey
  else if 0 < type.contentKeywords.length &&
     type.contentKeywords.any (fun keyword => strContains lowerText (jsToLower keyword)) &&
     type.wordCountMin ≤ wordCount then
    some typeKey
  else
    none

def claimScan (lowerFilename lowerText : String) (wordCount : Nat) :
    List String → Option String
  | [] => none
  | typeKey :: rest =>
    match claimStep lowerFilename lowerText wordCount typeKey with
    | some r => some r
    | none => claimScan lowerFilename lowerText wordCount rest

def claimClassifyDocument (filename text : String) : String :=
  let lowerFilename := jsToLower filename
  let lowerText := jsToLower text
  let wordCount := jsWordCount text
  match claimScan lowerFilename lowerText wordCount CLASSIFICATION_ORDER with
  | some k => k
  | none => classifyFallback wordCount

/-- The 17 keys preceding `quickNote` in the classification order. -/
def classificationFront : List String :=
  ["legal", "notes", "extraMaterials", "toAggregate", "forToday", "goldilocks",
   "shortPitch", "beatSheet", "outline", "seriesDoc", "characterBreakdown",
   "worldBuilding", "trimmedDraft", "pilot", "draft", "pitch", "sessionNotes"]

/-! ### Filename date parsing (`parseDocumentDate`) -/

/-- The three constructor arguments passed to `new Date(year, month,
day)` (month is zero-based; the constructor arguments are recorded, not
calendar-normalised). -/
structure JsDate where
  year : Int
  month : Int
  day : Int
  deriving DecidableEq, Repr

/-- Two ASCII digits at the head of the character list; returns their
two-digit value and the remaining characters. -/
def twoDigitsAt : List Char → Option (Nat × List Char)
  | c1 :: c2 :: rest =>
    if c1.isDigit && c2.isDigit then
      some ((c1.toNat - 48) * 10 + (c2.toNat - 48), rest)
    else
      none
  | _ => none

/-- Attempt one of the three date regexes at a fixed position:
`sep = some c` models `(\d{2})c(\d{2})c(\d{2})`, `sep = none` models
`(\d{2})(\d{2})(\d{2})`. -/
def matchDateAt (sep : Option Char) (cs : List Char) : Option (Nat × Nat × Nat) :=
  let sepStep : List Char → Option (List Char) := fun l =>
    match sep with
    | none => some l
    | some ch => match l with
      | c :: r => if c = ch then some r else none
      | [] => none
  match twoDigitsAt cs with
  | none => none
  | some (yy, cs1) =>
    match sepStep cs1 with
    | none => none
    | some cs2 =>
      match twoDigitsAt cs2 with
      | none => none
      | some (mm, cs3) =>
        match sepStep cs3 with
        | none => none
        | some cs4 =>
          match twoDigitsAt cs4 with
          | none => none
          | some (dd, _) => some (yy, mm, dd)

/-- Leftmost match of a date pattern (the semantics of
`String.prototype.match` with a non-global, non-anchored regex). -/
def scanDate (sep : Option Char) : List Char → Option (Nat × Nat × Nat)
  | [] => matchDateAt sep []
  | c :: rest =>
    match matchDateAt sep (c :: rest) with
    | some r => some r
    | none => scanDate sep rest

/-- `parseDocumentDate(filename)`.  `now` stands for the `new Date()`
fallback taken when no pattern matches. -/
def parseDocumentDate (now : JsDate) (filename : String) : JsDate :=
  let m : Option (Nat × Nat × Nat) :=
    match scanDate (some '_') filename.data with
    | some r => some r
    | none =>
      match scanDate none filename.data with
      | some r => some r
      | none => scanDate (some '.') filename.data
  match m with
  | some (yy, mm, dd) =>
    { year := 2000 + (yy : Int), month := (mm : Int) - 1, day := (dd : Int) }
  | none => now

/-! ### Text extraction adapter (`extractTextFromFile`)

The four format-specific extraction libraries (mammoth, pdf-parse,
rtf-parser, plus the Pages-package `QuickLook/Preview.pdf` probe) are
external dependencies; they are modelled as an environment assigning to
each file path the text or failure they produce. -/

structure ExtractorEnv where
  docx : String → Except String String
  pdf : String → Except String String
  rtf : String → Except String String
  pagesPreviewExists : String → Bool
  pagesPdf : String → Except String String

/-- The body of the `switch` on the lower-cased extension: the
underlying extraction step, before the uniform error wrapping. -/
def rawExtract (env : ExtractorEnv) (filePath ext : String) : Except String String :=
  if ext == ".docx" then env.docx filePath
  else if ext == ".pdf" then env.pdf filePath
  else if ext == ".rtf" then env.rtf filePath
  else if ext == ".pages" then
    if env.pagesPreviewExists filePath then env.pagesPdf filePath
    else .error ".pages file format not fully supported. Please export to .docx or .pdf"
  else .error ("Unsupported file format: " ++ ext)

/-- `extractTextFromFile(filePath, filename)`: dispatch on the
lower-cased extension and re-raise any failure in the uniform wrapped
form — except that the `.rtf` case returns the stream parser's promise
without `await` inside the `try`, so an RTF rejection never reaches the
`catch` and propagates as the parser's raw error. -/
def extractTextFromFile (env : ExtractorEnv) (filePath filename : String) :
    Except String String :=
  let ext := jsToLower (extname filename)
  match rawExtract env filePath ext with
  | .ok text => .ok text
  | .error msg =>
    if ext == ".rtf" then .error msg
    else .error ("Failed to extract text from " ++ ext ++ " file: " ++ msg)

/-! ### Heuristic content analyzers -/

structure Section where
  title : String
  content : String
  wordCount : Nat
  deriving DecidableEq, Repr

/-- Is a trimmed line a section header: non-empty, shorter than 100
characters, equal to its own upper-casing, and drawn entirely from
`[A-Z\s/:&-]`? -/
def isSectionHeader (trimmedLine : String) : Bool :=
  0 < trimmedLine.length && trimmedLine.length < 100 &&
  trimmedLine == jsToUpper trimmedLine &&
  trimmedLine.data.all
    (fun c => (65 ≤ c.toNat && c.toNat ≤ 90) || isJsSpace c || c = '/' || c = ':' || c = '&' || c = '-')

/-- Close out an accumulated section. -/
def flushSection (cur : Option String) (content : List String) : List Section :=
  match cur with
  | none => []
  | some title =>
    [{ title
       content := jsTrim (String.intercalate "\n" content)
       wordCount := ((jsWords (String.intercalate " " content)).filter
         (fun w => decide (0 < w.length))).length }]

def extractSectionsGo : List String → Option String → List String → List Section
  | [], cur, content => flushSection cur content
  | line :: rest, cur, content =>
    let trimmedLine := jsTrim line
    if isSectionHeader trimmedLine then
      flushSection cur content ++ extractSectionsGo rest (some trimmedLine) []
    else if cur.isSome && 0 < trimmedLine.length then
      extractSectionsGo rest cur (content ++ [line])
    else
      extractSectionsGo rest cur content

/-- `extractSections(text)`. -/
def extractSections (text : String) : List Section :=
  extractSectionsGo (text.splitOn "\n") none []

def themeKeywordList : List String :=
  ["identity", "masculinity", "femininity", "community", "family",
   "power", "control", "freedom", "justice", "revenge", "love",
   "betrayal", "loyalty", "ambition", "greed", "sacrifice",
   "redemption", "corruption", "truth", "deception", "survival"]

/-- `extractThemes(text)`: the fixed keywords present as substrings of
the lower-cased text, in the fixed keyword order. -/
def extractThemes (text : String) : List String :=
  let lowerText := jsToLower text
  themeKeywordList.filter (fun keyword => strContains lowerText keyword)

def characterStopWords : List String :=
  ["THE", "AND", "OR", "BUT", "IN", "ON", "AT", "TO", "FOR",
   "OF", "WITH", "BY", "FROM", "UP", "ABOUT", "INTO", "THROUGH",
   "DURING", "BEFORE", "AFTER", "ABOVE", "BELOW", "BETWEEN",
   "INTRO", "THEME", "LOGLINE", "TONE", "REFERENCES", "NOTES",
   "DRAFT", "PITCH", "OUTLINE", "EPISODE", "SCENE", "ACT",
   "PILOT", "SERIES", "FINALE", "TEASER", "CLOSING", "EPISODES",
   "FIRST", "SECOND", "THIRD", "FOURTH", "FIFTH", "SIXTH", "SEVENTH", "EIGHTH",
   "ONE", "TWO", "THREE", "FOUR", "FIVE", "SIX", "SEVEN", "EIGHT", "NINE", "TEN",
   "DAY", "NIGHT", "INT", "EXT", "POV", "CONT", "VO", "OS",
   "HIS", "HER", "HAS", "HAD", "WAS", "WERE", "CAN", "WILL", "THAT", "THIS",
   "GET", "GOT", "GAVE", "TAKE", "TAKES", "NEED", "USE", "BECOME",
   "HERE", "THERE", "MOST", "OTHER", "WORLD", "MOMENT", "REASON",
   "PAGES", "PROJECT", "BUSINESS", "PROBLEM", "SHAPE", "SKILL",
   "TKTKTK", "TKTKTKTK", "TBD", "TBA",
   "PUBLICLY", "OWNED", "SHARES", "IPO", "INTERNATIONAL", "ROMANCE",
   "VASECTOMY", "BAG", "ARC", "THREAD", "DNA", "DIY", "HARD", "SMASH",
   "BATEMAN", "INTRODUCED"]

/-- `word.replace(/[^A-Z]/g, '')`. -/
def cleanWord (w : String) : String :=
  String.mk (w.data.filter (fun c => 65 ≤ c.toNat && c.toNat ≤ 90))

/-- `extractCharacters(text)` (deprecated legacy regex extractor):
whitespace tokens that consist purely of 3–15 upper-case letters and
are not stop words, deduplicated in first-occurrence order and then
sorted. -/
def extractCharacters (text : String) : List String :=
  let words := jsWords text
  let kept := words.foldl
    (fun acc word =>
      let cleaned := cleanWord word
      if 3 ≤ cleaned.length && cleaned.length ≤ 15 && cleaned == word &&
         !(characterStopWords.contains cleaned) && !(acc.contains cleaned) then
        acc ++ [cleaned]
      else
        acc) []
  jsSortBy jsStrLe kept

/-! ### Document records and the upload handler's document construction -/

/-- A stored document record (`project-data.json` entry).  `characters`
and `themes` are `Option` because legacy JSON records may lack the
fields entirely (`undefined` in JS), which several handlers test for
truthiness; `date` abstracts the stored ISO-8601 date string by the
timestamp it denotes, which is how the server compares dates
(`new Date(a.date) - new Date(b.date)`). -/
structure Document where
  id : String
  filename : String
  uploadedAt : String
  date : Nat
  type : String
  wordCount : Nat
  sections : List Section
  characters : Option (List String)
  themes : Option (List String)
  filePath : String
  aiEnhanced : Bool
  summary : Option String
  genre : Option String
  aiModel : Option String
  notesFrom : Option String
  actionItems : Option String
  questions : Option String
  structureDesc : Option String
  beatCount : Option String
  deriving DecidableEq, Repr

/-- Replace the first list element satisfying `p` (the JS handlers
mutate the record object returned by `Array.prototype.find` in place,
then persist the whole collection). -/
def replaceFirst (p : α → Bool) (new : α) : List α → List α
  | [] => []
  | x :: rest => if p x then new :: rest else x :: replaceFirst p new rest

/-- The document record built by the current `POST /api/upload` handler
(server.js).  `nowIso`/`nowDate` model `new Date()` at upload time,
`idStr` models `Date.now().toString()`, `storedName` the
multer-assigned stored filename, and `toMillis` the timestamp of a
constructed `Date` (calendar arithmetic is the JS runtime's).
Characters start empty; the type is left `unclassified`. -/
def uploadDocument (nowIso : String) (nowDate : JsDate) (toMillis : JsDate → Nat)
    (idStr storedName originalFilename text : String) : Document :=
  { id := idStr
    filename := originalFilename
    uploadedAt := nowIso
    date := toMillis (parseDocumentDate nowDate originalFilename)
    type := "unclassified"
    wordCount := jsWordCount text
    sections := extractSections text
    characters := some []
    themes := some (extractThemes text)
    filePath := storedName
    aiEnhanced := false
    summary := none, genre := none, aiModel := none, notesFrom := none
    actionItems := none, questions := none, structureDesc := none, beatCount := none }

def legacyNotesIndicators : List String :=
  ["notes from", "feedback on", "comments on", "thoughts on", "suggestions:",
   "changes needed", "needs work", "consider changing", "please revise",
   "i think you should", "my notes:", "overall thoughts"]

def legacyPitchIndicators : List String :=
  ["logline:", "logline", "one-liner:", "elevator pitch", "series bible", "genre:",
   "tone:", "comparable titles", "similar to", "meets", "in the vein of",
   "target audience", "why now", "market opportunity"]

def legacyScriptIndicators : List String :=
  ["fade in", "int.", "ext.", "fade out", "cut to:", "scene heading", "action:",
   "dialogue:"]

/-- `classifyDocumentType(filename, text)` of the unnamed legacy server
source: its own filename checks and indicator-scoring heuristic
(distinct from the taxonomy module's classifier). -/
def legacyClassifyDocumentType (filename text : String) : String :=
  let lowerFilename := jsToLower filename
  let lowerText := jsToLower text
  if strContains lowerFilename "notes" || strContains lowerFilename "feedback" ||
     strContains lowerFilename "comments" then "notes"
  else if strContains lowerFilename "pitch" || strContains lowerFilename "treatment" then
    "pitch"
  else if strContains lowerFilename "outline" then "outline"
  else if strContains lowerFilename "draft" || strContains lowerFilename "revision" then
    "draft"
  else
    let firstParagraph := jsToLower (strTake text 1000)
    let notesScore :=
      (legacyNotesIndicators.filter (fun indicator => strContains lowerText indicator)).length
    let pitchScore :=
      (legacyPitchIndicators.filter
        (fun indicator => strContains firstParagraph indicator)).length
    let scriptScore :=
      (legacyScriptIndicators.filter (fun indicator => strContains lowerText indicator)).length
    if 2 ≤ notesScore then "notes"
    else if 2 ≤ pitchScore then "pitch"
    else if 2 ≤ scriptScore then "draft"
    else if strContains lowerText "logline" || strContains lowerText "tone:" then "pitch"
    else if strContains lowerText "notes from" then "notes"
    else "document"

/-- The legacy upload handler's document construction (the unnamed
legacy server source): it classified immediately with its own heuristic
and populated `characters` from the regex extractor. -/
def legacyUploadDocument (nowIso : String) (nowDate : JsDate) (toMillis : JsDate → Nat)
    (idStr storedName originalFilename text : String) : Document :=
  { id := idStr
    filename := originalFilename
    uploadedAt := nowIso
    date := toMillis (parseDocumentDate nowDate originalFilename)
    type := legacyClassifyDocumentType originalFilename text
    wordCount := jsWordCount text
    sections := extractSections text
    characters := some (extractCharacters text)
    themes := some (extractThemes text)
    filePath := storedName
    aiEnhanced := false
    summary := none, genre := none, aiModel := none, notesFrom := none
    actionItems := none, questions := none, structureDesc := none, beatCount := none }

/-! ### AI analysis subsystem

The LLM gateway and the JSON parse of its replies are external; they
are modelled by `GatewayEnv`.  Only entry points on the
credential-configured path are modelled (with no API key every entry
point returns an absent result before doing anything). -/

structure PromptConfig where
  model : String
  prompt : String
  deriving DecidableEq, Repr

/-- A project's `aiPrompts` override object; any slot may be absent. -/
structure AiPrompts where
  notes : Option PromptConfig
  beatSheet : Option PromptConfig
  sessionNotes : Option PromptConfig
  default : Option PromptConfig
  deriving DecidableEq, Repr

structure DefaultPrompts where
  notes : PromptConfig
  beatSheet : PromptConfig
  sessionNotes : PromptConfig
  default : PromptConfig
  deriving DecidableEq, Repr

def DEFAULT_AI_PROMPTS : DefaultPrompts :=
  { notes :=
    { model := "openai/gpt-4o"
      prompt := "You are analyzing NOTES/FEEDBACK on a screenplay or pitch. These are comments from producers, agents, or executives.

Document filename: {filename}

Full text of notes:
{text}

Read the actual notes above and extract:

1. \"characters\": Character names mentioned in the feedback (NOT the names of people giving feedback)
2. \"themes\": The story/creative topics discussed in the notes (e.g., \"protagonist arc\", \"pacing\", \"tone\", \"world-building\")
3. \"summary\": Write ONE sentence describing the MAIN CREATIVE CONCERNS or suggestions in these notes. Read the actual feedback and summarize what they're asking for.

Examples of GOOD summaries:
- \"Notes emphasize the need for a stronger antagonist and clearer stakes in Act 2\"
- \"Feedback focuses on making the protagonist more likeable and the tone less dark\"
- \"Executive requests more distinctive world-building and faster pacing in the cold open\"

Examples of BAD summaries (DO NOT write these):
- \"The document contains feedback and suggestions\" ❌
- \"Notes provide input on the project\" ❌
- \"Document includes praise and concerns\" ❌

4. \"genre\": If notes mention the genre, include it; otherwise null
5. \"notesFrom\": Who gave these notes? (look for names/titles)
6. \"actionItems\": Specific changes requested (quoted from the notes if possible)

Read the notes carefully and be specific about what they actually say.

Return only valid JSON, no additional text." }
    beatSheet :=
    { model := "openai/gpt-4o"
      prompt := "Analyze this BEAT SHEET document.

Document filename: {filename}

Text excerpt:
{text}

Expected content: {expectedContent}

Please provide a JSON response with:
1. \"characters\": Array of character names appearing in the beats
2. \"themes\": Array of major story themes/arcs (3-5 themes)
3. \"summary\": One sentence describing the overall story arc
4. \"genre\": The genre (e.g., \"drama\", \"comedy\", \"thriller\")
5. \"structure\": Description of the act structure (e.g., \"Three-act structure with cold open\")
6. \"beatCount\": Approximate number of beats/scenes

Return only valid JSON, no additional text." }
    sessionNotes :=
    { model := "openai/gpt-4o"
      prompt := "Analyze this internal BRAINSTORMING/SESSION NOTE.

Document filename: {filename}

Text excerpt:
{text}

This is informal thinking/planning by the writer.

Please provide a JSON response with:
1. \"characters\": Array of character names mentioned (if any)
2. \"themes\": Array of topics/ideas being explored (3-5)
3. \"summary\": One sentence capturing the main thinking/ideas
4. \"genre\": If genre is mentioned, include it; otherwise null
5. \"questions\": Array of questions the writer is exploring (if identifiable)

Return only valid JSON, no additional text." }
    default :=
    { model := "openai/gpt-4o"
      prompt := "Analyze this {documentType} document.

Document filename: {filename}

Text excerpt:
{text}

Expected content: {expectedContent}

Please provide a JSON response with:

1. \"characters\": Array of ALL character names found in this document.
   - For screenplays/pitches: Include ALL character names mentioned (main characters, supporting characters, minor characters)
   - Look for names in ALL-CAPS (screenplay format) AND mixed-case mentions
   - Include first names, full names, or descriptive names (e.g., \"BO\", \"Max\", \"DOCTOR LARRY\", \"Junior Pastor Kurt\")
   - Return as array of strings: [\"Bo\", \"Max\", \"Cherie\", \"Larry\", \"Dolly\", \"Eddie\", \"Sarah\", \"Kurt\", \"Michelle\", \"Maia\"]
   - If no characters found, return empty array: []

2. \"themes\": Array of major themes (3-5 themes)

3. \"summary\": One sentence summary of the document

4. \"genre\": The genre (e.g., \"drama\", \"comedy\", \"thriller\")

IMPORTANT: Extract ALL character names you find, not just the main ones. Be thorough.

Return only valid JSON, no additional text." } }

/-- The fields of the parsed JSON object an analysis reply is read
into.  Values are abstracted to their presence and string identity
(`None` models a missing/falsy field). -/
structure ParsedAnalysis where
  characters : List String
  themes : List String
  summary : Option String
  genre : Option String
  notesFrom : Option String
  actionItems : Option String
  questions : Option String
  structureDesc : Option String
  beatCount : Option String
  deriving DecidableEq, Repr

/-- The external LLM gateway: `complete model promptContent` is the
reply content of the single chat completion issued, and
`parseAnalysis` the `JSON.parse` of a reply on the content-analysis
path. -/
structure GatewayEnv where
  complete : String → String → String
  parseAnalysis : String → ParsedAnalysis

/-- The taxonomy keys offered to the model for classification — every
key except `unclassified`. -/
def promptTypeKeys : List String :=
  (DOCUMENT_TYPES.map Prod.fst).filter (fun key => key ≠ "unclassified")

/-- The `availableTypes` listing interpolated into the classification
prompt. -/
def availableTypesText : String :=
  String.intercalate "\n"
    (promptTypeKeys.map (fun key => "- " ++ key ++ ": " ++ (getDocType key).description))

/-- The one-shot classification prompt of `classifyDocumentWithAI`. -/
def classifyPromptText (filename text : String) : String :=
  "Classify this document into one of the following types:\n\n" ++ availableTypesText ++
  "\n\nDocument filename: " ++ filename ++
  "\n\nText excerpt (first 2000 chars):\n" ++ strTake text 2000 ++
  "\n\nReturn ONLY the type key (e.g., \"pitch\", \"notes\", \"beatSheet\", etc.), nothing else."

/-- The property names `DOCUMENT_TYPES[key]` finds on an object
literal beyond its own keys: the members inherited from
`Object.prototype`, every one of which evaluates to a truthy value (a
function, or the prototype object for `__proto__`). -/
def objectPrototypeKeys : List String :=
  ["constructor", "hasOwnProperty", "isPrototypeOf", "propertyIsEnumerable",
   "toLocaleString", "toString", "valueOf", "__proto__",
   "__defineGetter__", "__defineSetter__", "__lookupGetter__", "__lookupSetter__"]

/-- Truthiness of the property access `DOCUMENT_TYPES[key]`: an own key
of the taxonomy object, or an inherited `Object.prototype` member. -/
def documentTypesHasProperty (key : String) : Bool :=
  (DOCUMENT_TYPES.lookup key).isSome || objectPrototypeKeys.contains key

/-- The validation step of `classifyDocumentWithAI`: lower-case and
trim the reply; accept it when the property access
`DOCUMENT_TYPES[detectedType]` is truthy — an own taxonomy key or an
inherited `Object.prototype` member — and fall back to `pitch`
otherwise. -/
def aiDetectedType (reply : String) : String :=
  let detectedType := jsToLower (jsTrim reply)
  if documentTypesHasProperty detectedType then detectedType else "pitch"

/-- `classifyDocumentWithAI(text, filename, model)` on the
credential-configured path: note the request is issued with the
caller-supplied `model`. -/
def classifyDocumentWithAI (env : GatewayEnv) (text filename model : String) : String :=
  aiDetectedType (env.complete model (classifyPromptText filename text))

/-- The prompts in force for a project: the `project-settings.json`
override when present, else the built-in defaults. -/
def effectivePrompts (settings : Option AiPrompts) : AiPrompts :=
  match settings with
  | some p => p
  | none =>
    { notes := some DEFAULT_AI_PROMPTS.notes
      beatSheet := some DEFAULT_AI_PROMPTS.beatSheet
      sessionNotes := some DEFAULT_AI_PROMPTS.sessionNotes
      default := some DEFAULT_AI_PROMPTS.default }

/-- Slot selection of `analyzeContentWithAI`, including the per-slot
fallback to the built-in default config. -/
def selectPromptConfig (aiPrompts : AiPrompts) (detectedType : String) : PromptConfig :=
  if detectedType == "notes" then
    aiPrompts.notes.getD DEFAULT_AI_PROMPTS.notes
  else if detectedType == "beatSheet" then
    aiPrompts.beatSheet.getD DEFAULT_AI_PROMPTS.beatSheet
  else if detectedType == "sessionNotes" || detectedType == "quickNote" then
    aiPrompts.sessionNotes.getD DEFAULT_AI_PROMPTS.sessionNotes
  else
    aiPrompts.default.getD DEFAULT_AI_PROMPTS.default

/-- What `analyzeContentWithAI` returns: the parsed analysis object
with `model` (the model actually used for the request) and
`detectedType` attached. -/
structure AIAnalysisOut where
  analysis : ParsedAnalysis
  model : String
  detectedType : String
  deriving DecidableEq, Repr

/-- `analyzeContentWithAI(text, filename, documentType, model,
projectId)` on the credential-configured path.  `settings` is the
project's loaded `aiPrompts` override (or `none` when the settings file
is absent/unreadable). -/
def analyzeContentWithAI (env : GatewayEnv) (settings : Option AiPrompts)
    (text filename documentType model : String) : AIAnalysisOut :=
  let detectedType :=
    if documentType == "unclassified" then classifyDocumentWithAI env text filename model
    else documentType
  let aiPrompts := effectivePrompts settings
  let promptConfig := selectPromptConfig aiPrompts detectedType
  let selectedModel := promptConfig.model
  let typeInfo := DOCUMENT_TYPES.lookup detectedType
  let typeName := match typeInfo with | some t => t.name | none => "Document"
  let expectedContent :=
    match typeInfo with
    | some t => String.intercalate ", " t.expectedContent
    | none => ""
  let analysisPrompt :=
    jsReplaceAll
      (jsReplaceAll
        (jsReplaceAll
          (jsReplaceAll promptConfig.prompt "{filename}" filename)
          "{text}" (strTake text 25000))
        "{documentType}" (jsToUpper typeName))
      "{expectedContent}" expectedContent
  let reply := env.complete selectedModel analysisPrompt
  { analysis := env.parseAnalysis reply
    model := selectedModel
    detectedType := detectedType }

/-! ### `POST /api/documents/:id/analyze` -/

/-- Conditional assignment `if (value) document.field = value` for an
optional string field. -/
def jsAssignIf (newVal old : Option String) : Option String :=
  match newVal with
  | none => old
  | some v => if v == "" then old else some v

/-- The in-place update the analyze endpoint performs on the found
document once AI analysis has returned. -/
def applyAnalysis (document : Document) (aiAnalysis : AIAnalysisOut) : Document :=
  { document with
    characters := some aiAnalysis.analysis.characters
    themes := some aiAnalysis.analysis.themes
    summary := aiAnalysis.analysis.summary
    genre := aiAnalysis.analysis.genre
    aiEnhanced := true
    aiModel := some aiAnalysis.model
    type := if aiAnalysis.detectedType == "" then document.type else aiAnalysis.detectedType
    notesFrom := jsAssignIf aiAnalysis.analysis.notesFrom document.notesFrom
    actionItems := jsAssignIf aiAnalysis.analysis.actionItems document.actionItems
    questions := jsAssignIf aiAnalysis.analysis.questions document.questions
    structureDesc := jsAssignIf aiAnalysis.analysis.structureDesc document.structureDesc
    beatCount := jsAssignIf aiAnalysis.analysis.beatCount document.beatCount }

inductive AnalyzeResp where
  | notFound (msg : String)
  | serverError (msg : String)
  | ok (document : Document)
  deriving DecidableEq, Repr

/-- The `POST /api/documents/:id/analyze` handler on the
credential-configured path: resolve the document, re-extract its text,
run `analyzeContentWithAI` with the document's stored type and the
caller's requested model (`req.body?.model || 'openai/gpt-4o'`), apply
the update and save. -/
def analyzeDocumentHandler (env : GatewayEnv) (xenv : ExtractorEnv)
    (settings : Option AiPrompts) (store : Option (List Document))
    (docId : String) (bodyModel : Option String) :
    AnalyzeResp × Option (List Document) :=
  let requestedModel := jsOrDefault bodyModel "openai/gpt-4o"
  match store with
  | none => (.notFound "Document not found", store)
  | some docs =>
    match docs.find? (fun d => d.id == docId) with
    | none => (.notFound "Document not found", store)
    | some document =>
      match extractTextFromFile xenv document.filePath document.filename with
      | .error e => (.serverError e, store)
      | .ok text =>
        let aiAnalysis :=
          analyzeContentWithAI env settings text document.filename document.type requestedModel
        let newDoc := applyAnalysis document aiAnalysis
        (.ok newDoc, some (replaceFirst (fun d => d.id == docId) newDoc docs))

/-! ### `DELETE /api/documents/:id/characters` -/

inductive CharEditResp where
  | badRequest (msg : String)
  | notFound (msg : String)
  | ok (characters : List String)
  deriving DecidableEq, Repr

/-- The remove-character handler: missing/empty name → 400; absent
project store → 404; unknown document id → 404; a document without a
`characters` field → 400; otherwise filter the name out of the list (a
no-op when it is not present), persist, and answer with the updated
list. -/
def removeCharacterHandler (store : Option (List Document)) (docId : String)
    (bodyCharacter : Option String) : CharEditResp × Option (List Document) :=
  if jsFalsyStr bodyCharacter then
    (.badRequest "Character name required", store)
  else
    let character := bodyCharacter.getD ""
    match store with
    | none => (.notFound "Project not found", store)
    | some docs =>
      match docs.find? (fun d => d.id == docId) with
      | none => (.notFound "Document not found", store)
      | some document =>
        match document.characters with
        | none => (.badRequest "No characters found", store)
        | some cs =>
          let filtered := cs.filter (fun c => !(c == character))
          let newDoc := { document with characters := some filtered }
          (.ok filtered, some (replaceFirst (fun d => d.id == docId) newDoc docs))

/-! ### `GET /api/compare/:id1/:id2` -/

/-- One segment of the external word-diff library's output. -/
structure DiffPart where
  value : String
  added : Bool
  removed : Bool
  deriving DecidableEq, Repr

structure ThematicShift where
  added : Nat
  removed : Nat
  unchanged : Nat
  totalChange : Nat
  netChange : Int
  shiftPercentage : Nat
  deriving DecidableEq, Repr

/-- The thematic-shift block of the compare handler.  `Math.round` of
the non-negative percentage is modelled exactly over the rationals:
`round(x) = ⌊x + 1/2⌋`, realised on naturals as
`(200·total + len) / (2·len)`. -/
def thematicShift (themes1 themes2 : List String) : ThematicShift :=
  let newThemes := themes2.filter (fun t => !(themes1.contains t))
  let removedThemes := themes1.filter (fun t => !(themes2.contains t))
  let unchangedThemes := themes1.filter (fun t => themes2.contains t)
  { added := newThemes.length
    removed := removedThemes.length
    unchanged := unchangedThemes.length
    totalChange := newThemes.length + removedThemes.length
    netChange := (themes2.length : Int) - (themes1.length : Int)
    shiftPercentage :=
      if 0 < themes1.length then
        (200 * (newThemes.length + removedThemes.length) + themes1.length) /
          (2 * themes1.length)
      else 0 }

/-- The statistics object handed to the AI brief generator. -/
structure BriefStats where
  wordsAdded : Nat
  wordsRemoved : Nat
  wordCountChange : Int
  newCharacters : List String
  removedCharacters : List String
  newThemes : List String
  removedThemes : List String
  newSections : List Section
  removedSections : List Section
  deriving DecidableEq, Repr

/-- External pieces of the compare pipeline: the word-diff library and
the (optional) AI comparison-brief generator. -/
structure CompareEnv where
  diffWords : String → String → List DiffPart
  brief : Document → Document → BriefStats → String → String → Option String

/-- The per-document block echoed in the compare response. -/
structure CompareDocView where
  id : String
  filename : String
  date : Nat
  wordCount : Nat
  characters : List String
  themes : List String
  sections : List Section
  deriving DecidableEq, Repr

structure CompareStats where
  wordsAdded : Nat
  wordsRemoved : Nat
  wordsUnchanged : Nat
  wordCountChange : Int
  newCharacters : List String
  removedCharacters : List String
  newThemes : List String
  removedThemes : List String
  unchangedThemes : List String
  thematicShift : ThematicShift
  newSections : List Section
  removedSections : List Section
  sectionCountChange : Int
  deriving DecidableEq, Repr

structure CompareResponse where
  doc1 : CompareDocView
  doc2 : CompareDocView
  stats : CompareStats
  brief : Option String
  deriving DecidableEq, Repr

inductive CompareResult where
  | notFound (msg : String)
  | serverError (msg : String)
  | ok (resp : CompareResponse)
  deriving DecidableEq, Repr

/-- The `GET /api/compare/:id1/:id2` handler: resolve both documents,
swap so that `doc1` is the chronologically earlier one, re-extract both
texts, diff, and compute the statistics block.  A document record
missing its `characters` or `themes` field would crash the JS handler
with a `TypeError` (converted to a 500 by the route's catch), modelled
by the `serverError` branch. -/
def compareDocumentsHandler (xenv : ExtractorEnv) (cenv : CompareEnv)
    (store : Option (List Document)) (id1 id2 : String) : CompareResult :=
  match store with
  | none => .notFound "Project data not found"
  | some docs =>
    match docs.find? (fun d => d.id == id1), docs.find? (fun d => d.id == id2) with
    | some a, some b =>
      let docPair := if b.date < a.date then (b, a) else (a, b)
      let doc1 := docPair.1
      let doc2 := docPair.2
      match extractTextFromFile xenv doc1.filePath doc1.filename,
            extractTextFromFile xenv doc2.filePath doc2.filename with
      | .ok text1, .ok text2 =>
        match doc1.characters, doc2.characters, doc1.themes, doc2.themes with
        | some chars1, some chars2, some themes1, some themes2 =>
          let textDiff := cenv.diffWords text1 text2
          let counts := textDiff.foldl
            (fun (acc : Nat × Nat × Nat) part =>
              let wc := jsWordCount part.value
              if part.added then (acc.1 + wc, acc.2.1, acc.2.2)
              else if part.removed then (acc.1, acc.2.1 + wc, acc.2.2)
              else (acc.1, acc.2.1, acc.2.2 + wc))
            (0, 0, 0)
          let newCharacters := chars2.filter (fun c => !(chars1.contains c))
          let removedCharacters := chars1.filter (fun c => !(chars2.contains c))
          let newThemes := themes2.filter (fun t => !(themes1.contains t))
          let removedThemes := themes1.filter (fun t => !(themes2.contains t))
          let unchangedThemes := themes1.filter (fun t => themes2.contains t)
          let shift := thematicShift themes1 themes2
          let doc1SectionTitles := doc1.sections.map (fun s => s.title)
          let doc2SectionTitles := doc2.sections.map (fun s => s.title)
          let newSections := doc2.sections.filter (fun s => !(doc1SectionTitles.contains s.title))
          let removedSections := doc1.sections.filter (fun s => !(doc2SectionTitles.contains s.title))
          let statsForBrief : BriefStats :=
            { wordsAdded := counts.1
              wordsRemoved := counts.2.1
              wordCountChange := (doc2.wordCount : Int) - (doc1.wordCount : Int)
              newCharacters, removedCharacters, newThemes, removedThemes
              newSections, removedSections }
          let brief := cenv.brief doc1 doc2 statsForBrief (strTake text1 500) (strTake text2 500)
          .ok
            { doc1 :=
              { id := doc1.id, filename := doc1.filename, date := doc1.date
                wordCount := doc1.wordCount, characters := chars1, themes := themes1
                sections := doc1.sections }
              doc2 :=
              { id := doc2.id, filename := doc2.filename, date := doc2.date
                wordCount := doc2.wordCount, characters := chars2, themes := themes2
                sections := doc2.sections }
              stats :=
              { wordsAdded := counts.1
                wordsRemoved := counts.2.1
                wordsUnchanged := counts.2.2
                wordCountChange := (doc2.wordCount : Int) - (doc1.wordCount : Int)
                newCharacters, removedCharacters, newThemes, removedThemes, unchangedThemes
                thematicShift := shift
                newSections, removedSections
                sectionCountChange := (doc2.sections.length : Int) - (doc1.sections.length : Int) }
              brief := brief }
        | _, _, _, _ => .serverError "TypeError"
      | .error e, _ => .serverError e
      | .ok _, .error e => .serverError e
    | _, _ => .notFound "One or both documents not found"

/-! ### `GET /api/story-grid` -/

/-- `[...new Set(l)]`: deduplication preserving first-occurrence
order. -/
def jsSetDedupAux (seen : List String) : List String → List String
  | [] => []
  | x :: rest =>
    if seen.contains x then jsSetDedupAux seen rest
    else x :: jsSetDedupAux (x :: seen) rest

def jsSetDedup (l : List String) : List String := jsSetDedupAux [] l

/-- `Array.prototype.sort()` on strings (lexicographic). -/
def sortedStrings (l : List String) : List String := jsSortBy jsStrLe l

/-- The comparator `(a, b) => new Date(a.date) - new Date(b.date)`. -/
def docDateLe (a b : Document) : Bool := a.date ≤ b.date

structure CharAppearance where
  docId : String
  docName : String
  docDate : Nat
  present : Bool
  mentions : Nat
  deriving DecidableEq, Repr

structure CharacterRow where
  character : String
  appearances : List CharAppearance
  totalAppearances : Nat
  firstAppearance : Option Nat
  lastAppearance : Option Nat
  deriving DecidableEq, Repr

structure ThemeAppearance where
  docId : String
  docName : String
  docDate : Nat
  present : Bool
  deriving DecidableEq, Repr

structure ThemeRow where
  theme : String
  appearances : List ThemeAppearance
  totalAppearances : Nat
  firstAppearance : Option Nat
  lastAppearance : Option Nat
  deriving DecidableEq, Repr

/-- The per-document appearance object of a character row. -/
def mkCharAppearance (character : String) (doc : Document) : CharAppearance :=
  { docId := doc.id
    docName := doc.filename
    docDate := doc.date
    present := (doc.characters.getD []).contains character
    mentions := if (doc.characters.getD []).contains character then 1 else 0 }

/-- The per-document appearance object of a theme row. -/
def mkThemeAppearance (theme : String) (doc : Document) : ThemeAppearance :=
  { docId := doc.id
    docName := doc.filename
    docDate := doc.date
    present := (doc.themes.getD []).contains theme }

/-- One character row of the story grid (`characterGrid` construction;
`?.docDate || null` is modelled by the `Option` map — a stored date
string is never falsy). -/
def storyGridCharacterRow (sortedDocs : List Document) (character : String) : CharacterRow :=
  let appearances := sortedDocs.map (mkCharAppearance character)
  { character := character
    appearances := appearances
    totalAppearances := (appearances.filter (fun a => a.present)).length
    firstAppearance := (appearances.find? (fun a => a.present)).map (fun a => a.docDate)
    lastAppearance := (appearances.reverse.find? (fun a => a.present)).map (fun a => a.docDate) }

/-- One theme row of the story grid. -/
def storyGridThemeRow (sortedDocs : List Document) (theme : String) : ThemeRow :=
  let appearances := sortedDocs.map (mkThemeAppearance theme)
  { theme := theme
    appearances := appearances
    totalAppearances := (appearances.filter (fun a => a.present)).length
    firstAppearance := (appearances.find? (fun a => a.present)).map (fun a => a.docDate)
    lastAppearance := (appearances.reverse.find? (fun a => a.present)).map (fun a => a.docDate) }

structure StoryGridStats where
  totalDocuments : Nat
  totalCharacters : Nat
  totalThemes : Nat
  dateRangeFirst : Option Nat
  dateRangeLast : Option Nat
  deriving DecidableEq, Repr

/-- The computed part of the `GET /api/story-grid` response: the
character matrix, the theme matrix, and the summary stats.  (The
response also echoes the chronologically sorted documents with their
per-document grid fields; no claim concerns that echo.) -/
structure StoryGridResponse where
  characterGrid : List CharacterRow
  themeGrid : List ThemeRow
  stats : StoryGridStats
  deriving DecidableEq, Repr

def storyGridHandler (store : Option (List Document)) : StoryGridResponse :=
  match store with
  | none =>
    { characterGrid := []
      themeGrid := []
      stats := { totalDocuments := 0, totalCharacters := 0, totalThemes := 0,
                 dateRangeFirst := none, dateRangeLast := none } }
  | some documents =>
    let sortedDocs := jsSortBy docDateLe documents
    let allCharacters := sortedStrings (jsSetDedup (documents.flatMap (fun d => d.characters.getD [])))
    let allThemes := sortedStrings (jsSetDedup (documents.flatMap (fun d => d.themes.getD [])))
    { characterGrid := allCharacters.map (storyGridCharacterRow sortedDocs)
      themeGrid := allThemes.map (storyGridThemeRow sortedDocs)
      stats :=
      { totalDocuments := documents.length
        totalCharacters := allCharacters.length
        totalThemes := allThemes.length
        dateRangeFirst := sortedDocs.head?.map (fun d => d.date)
        dateRangeLast := sortedDocs.getLast?.map (fun d => d.date) } }

/-- The row shape claim C10 asserts for a character row: one
appearance per project document, listed in ascending date order, a
positive appearance total, and non-null first/last appearance dates
equal to the dates of the earliest and latest present entries. -/
def characterRowOk (docCount : Nat) (row : CharacterRow) : Prop :=
  row.appearances.length = docCount ∧
  row.appearances.Pairwise (fun x y => x.docDate ≤ y.docDate) ∧
  1 ≤ row.totalAppearances ∧
  row.firstAppearance =
    ((row.appearances.filter (fun a => a.present)).head?).map (fun a => a.docDate) ∧
  row.firstAppearance ≠ none ∧
  row.lastAppearance =
    ((row.appearances.filter (fun a => a.present)).getLast?).map (fun a => a.docDate) ∧
  row.lastAppearance ≠ none

/-- The row shape claim C10 asserts for a theme row. -/
def themeRowOk (docCount : Nat) (row : ThemeRow) : Prop :=
  row.appearances.length = docCount ∧
  row.appearances.Pairwise (fun x y => x.docDate ≤ y.docDate) ∧
  1 ≤ row.totalAppearances ∧
  row.firstAppearance =
    ((row.appearances.filter (fun a => a.present)).head?).map (fun a => a.docDate) ∧
  row.firstAppearance ≠ none ∧
  row.lastAppearance =
    ((row.appearances.filter (fun a => a.present)).getLast?).map (fun a => a.docDate) ∧
  row.lastAppearance ≠ none

/-- A concrete document record used to instantiate theorems at sample
stores (fields not under test are inert defaults). -/
def sampleDoc (idStr : String) (dateVal : Nat) (chars themes : Option (List String)) :
    Document :=
  { id := idStr
    filename := idStr ++ ".docx"
    uploadedAt := ""
    date := dateVal
    type := "unclassified"
    wordCount := 0
    sections := []
    characters := chars
    themes := themes
    filePath := idStr
    aiEnhanced := false
    summary := none, genre := none, aiModel := none, notesFrom := none
    actionItems := none, questions := none, structureDesc := none, beatCount := none }

/-- A trivially inert extraction environment for instantiating
theorems. -/
def okExtractorEnv : ExtractorEnv :=
  { docx := fun _ => .ok ""
    pdf := fun _ => .ok ""
    rtf := fun _ => .ok ""
    pagesPreviewExists := fun _ => false
    pagesPdf := fun _ => .ok "" }

/-- A trivially inert compare environment for instantiating theorems. -/
def trivialCompareEnv : CompareEnv :=
  { diffWords := fun _ _ => []
    brief := fun _ _ _ _ _ => none }

/-- A trivially inert gateway environment for instantiating theorems:
the model always replies with the empty string, and parsing yields an
empty analysis. -/
def trivialGatewayEnv : GatewayEnv :=
  { complete := fun _ _ => ""
    parseAnalysis := fun _ =>
      { characters := [], themes := [], summary := none, genre := none, notesFrom := none,
        actionItems := none, questions := none, structureDesc := none, beatCount := none } }

/-!
## Lemmas and claim theorems
-/

/-! ### Classifier lemmas -/

lemma classifyStep_eq_claimStep (filename lowerFilename lowerText : String)
    (wordCount : Nat) (typeKey : String) (h : typeKey ≠ "quickNote") :
    classifyStep filename lowerFilename lowerText wordCount typeKey =
      claimStep lowerFilename lowerText wordCount typeKey := by
  unfold classifyStep claimStep
  have : (typeKey == "quickNote") = false := by
    simpa using h
  simp [this]

lemma classifyScan_eq_claimScan (filename lowerFilename lowerText : String)
    (wordCount : Nat) (l : List String) (h : "quickNote" ∉ l) :
    classifyScan filename lowerFilename lowerText wordCount l =
      claimScan lowerFilename lowerText wordCount l := by
  induction l with
  | nil => rfl
  | cons k rest ih =>
    have hk : k ≠ "quickNote" := fun hk => h (hk ▸ List.mem_cons_self k rest)
    have hrest : "quickNote" ∉ rest := fun hr => h (List.mem_cons_of_mem _ hr)
    simp only [classifyScan, claimScan,
      classifyStep_eq_claimStep filename lowerFilename lowerText wordCount k hk, ih hrest]

lemma classifyScan_append (filename lowerFilename lowerText : String)
    (wordCount : Nat) (l₁ l₂ : List String) :
    classifyScan filename lowerFilename lowerText wordCount (l₁ ++ l₂) =
      match classifyScan filename lowerFilename lowerText wordCount l₁ with
      | some r => some r
      | none => classifyScan filename lowerFilename lowerText wordCount l₂ := by
  induction l₁ with
  | nil => rfl
  | cons k rest ih =>
    simp only [List.cons_append, classifyScan]
    cases classifyStep filename lowerFilename lowerText wordCount k with
    | some r => rfl
    | none => exact ih

lemma claimScan_append (lowerFilename lowerText : String)
    (wordCount : Nat) (l₁ l₂ : List String) :
    claimScan lowerFilename lowerText wordCount (l₁ ++ l₂) =
      match claimScan lowerFilename lowerText wordCount l₁ with
      | some r => some r
      | none => claimScan lowerFilename lowerText wordCount l₂ := by
  induction l₁ with
  | nil => rfl
  | cons k rest ih =>
    simp only [List.cons_append, claimScan]
    cases claimStep lowerFilename lowerText wordCount k with
    | some r => rfl
    | none => exact ih

lemma classification_order_split :
    CLASSIFICATION_ORDER = classificationFront ++ ["quickNote"] := rfl

lemma classifyStep_quickNote_some (fn lf lt : String) (wc : Nat) (r : String)
    (h : classifyStep fn lf lt wc "quickNote" = some r) : r = "quickNote" ∧ wc < 500 := by
  unfold classifyStep at h
  simp [getDocType, DOCUMENT_TYPES, List.lookup] at h
  obtain ⟨⟨⟨⟨hwc, _⟩, _⟩, _⟩, hr⟩ := h
  exact ⟨hr.symm, hwc⟩

lemma claimStep_quickNote (lf lt : String) (wc : Nat) :
    claimStep lf lt wc "quickNote" = none := by
  unfold claimStep
  simp [getDocType, DOCUMENT_TYPES, List.lookup]

/-- The special `quickNote` rule is redundant: whenever it fires, the
word count is below 500 and the fallback would return `quickNote`
anyway, so the full classifier agrees with the claim's simplified
description everywhere. -/
lemma classifyDocument_eq_claimClassifyDocument (filename text : String) :
    classifyDocument filename text = claimClassifyDocument filename text := by
  simp only [classifyDocument, claimClassifyDocument, classification_order_split,
    classifyScan_append, claimScan_append,
    classifyScan_eq_claimScan _ _ _ _ classificationFront (by decide)]
  cases claimScan (jsToLower filename) (jsToLower text) (jsWordCount text)
      classificationFront with
  | some r => rfl
  | none =>
    simp only [classifyScan, claimScan, claimStep_quickNote]
    cases hq : classifyStep filename (jsToLower filename) (jsToLower text)
        (jsWordCount text) "quickNote" with
    | none => rfl
    | some r =>
      obtain ⟨hr, hwc⟩ := classifyStep_quickNote_some _ _ _ _ _ hq
      subst hr
      simp [classifyFallback, hwc]

/-! ### Claim C1 -/

/-- C1 (amended): `classifyDocument` computes the whitespace word count
and scans the fixed classification order, returning a type on a
filename-keyword match, else on a content-keyword match with word count
at least the type's minimum, with the `quickNote`/`sessionNotes`/`pitch`
word-count fallback — i.e. it agrees everywhere with the claim's
simplified algorithm `claimClassifyDocument`.  In particular, a
document whose filename contains "notes" and which is not matched by
the earlier `legal` rule is classified `notes` even when its content
also matches `pitch` content keywords.  (The claim's unconditional
precedence sentence is false: `legal` precedes `notes`, see the
counterexample.) -/
theorem c1_classification_follows_claim_order :
    (∀ filename text, classifyDocument filename text = claimClassifyDocument filename text) ∧
    (∀ filename text,
      strContains (jsToLower filename) "notes" = true →
      claimStep (jsToLower filename) (jsToLower text) (jsWordCount text) "legal" = none →
      classifyDocument filename text = "notes") := by
  refine ⟨classifyDocument_eq_claimClassifyDocument, ?_⟩
  intro filename text hn hl
  have hlegal : classifyStep filename (jsToLower filename) (jsToLower text)
      (jsWordCount text) "legal" = none := by
    rw [classifyStep_eq_claimStep _ _ _ _ _ (by decide)]
    exact hl
  have h5 : jsToLower "notes" = "notes" := by decide
  have hstep : classifyStep filename (jsToLower filename) (jsToLower text)
      (jsWordCount text) "notes" = some "notes" := by
    simp [classifyStep, getDocType, DOCUMENT_TYPES, List.lookup, h5, hn]
  show (match classifyScan filename (jsToLower filename) (jsToLower text) (jsWordCount text)
      CLASSIFICATION_ORDER with
    | some k => k
    | none => classifyFallback (jsWordCount text)) = "notes"
  rw [show CLASSIFICATION_ORDER = "legal" :: "notes" ::
      ["extraMaterials", "toAggregate", "forToday", "goldilocks", "shortPitch", "beatSheet",
       "outline", "seriesDoc", "characterBreakdown", "worldBuilding", "trimmedDraft",
       "pilot", "draft", "pitch", "sessionNotes", "quickNote"] from rfl]
  simp only [classifyScan, hlegal, hstep]

/-- C1 witness: a filename containing "notes" that the `legal` rule
does not match is classified `notes` although the content matches a
`pitch` content keyword. -/
theorem c1_classification_follows_claim_order_witness :
    strContains (jsToLower "my notes.docx") "notes" = true ∧
    claimStep (jsToLower "my notes.docx") (jsToLower "logline") (jsWordCount "logline")
      "legal" = none ∧
    classifyDocument "my notes.docx" "logline" = "notes" :=
  ⟨by decide, by decide,
    c1_classification_follows_claim_order.2 "my notes.docx" "logline" (by decide) (by decide)⟩

/-- C1 counterexample: the claim's sentence "a document whose filename
contains `notes` is classified `notes` even when its content also
matches `pitch` content keywords" fails — `legal` is checked before
`notes`, so `"contract notes.docx"` with pitch-keyword content
(`logline`) is classified `legal`, not `notes`. -/
theorem c1_notes_precedence_counterexample :
    strContains (jsToLower "contract notes.docx") "notes" = true ∧
    (getDocType "pitch").contentKeywords.any
      (fun keyword => strContains (jsToLower "logline") (jsToLower keyword)) = true ∧
    classifyDocument "contract notes.docx" "logline" = "legal" ∧
    ("legal" : String) ≠ "notes" := by
  refine ⟨by decide, by decide, by decide, by decide⟩

/-! ### Claim C2 -/

/-- C2 (amended): for `.docx`, `.pdf` and `.pages`, a failure of the
underlying extraction step is re-raised by `extractTextFromFile` as
`"Failed to extract text from <ext> file: <cause>"` with the original
cause message embedded; an RTF stream-parser failure, however, is the
rejection of a promise the `.rtf` case returns without `await`, so it
bypasses the `catch` and propagates as the parser's raw error,
unwrapped. -/
theorem c2_extraction_failures_wrapped :
    (∀ (env : ExtractorEnv) (filePath filename cause : String),
      jsToLower (extname filename) ∈ [".docx", ".pdf", ".pages"] →
      rawExtract env filePath (jsToLower (extname filename)) = .error cause →
      extractTextFromFile env filePath filename =
        .error ("Failed to extract text from " ++ jsToLower (extname filename) ++
          " file: " ++ cause)) ∧
    (∀ (env : ExtractorEnv) (filePath filename cause : String),
      jsToLower (extname filename) = ".rtf" →
      env.rtf filePath = .error cause →
      extractTextFromFile env filePath filename = .error cause) := by
  constructor
  · intro env filePath filename cause hmem hraw
    simp only [List.mem_cons, List.not_mem_nil, or_false] at hmem
    have hne : ¬(jsToLower (extname filename) == ".rtf") = true := by
      rcases hmem with h | h | h <;> rw [h] <;> decide
    simp only [extractTextFromFile, hraw, if_neg hne]
  · intro env filePath filename cause hext hrtf
    have hraw : rawExtract env filePath ".rtf" = .error cause := by
      simpa [rawExtract] using hrtf
    simp [extractTextFromFile, hext, hraw]

/-- C2 witness: a concrete DOCX extraction failure is surfaced in the
uniform wrapped form, and a concrete RTF parser failure propagates
raw. -/
theorem c2_extraction_failures_wrapped_witness :
    jsToLower (extname "doc.docx") = ".docx" ∧
    extractTextFromFile
      { okExtractorEnv with docx := fun _ => .error "Corrupt DOCX" }
      "uploads/doc.docx" "doc.docx" =
      .error "Failed to extract text from .docx file: Corrupt DOCX" ∧
    extractTextFromFile
      { okExtractorEnv with rtf := fun _ => .error "Invalid RTF file" }
      "uploads/doc.rtf" "doc.rtf" = .error "Invalid RTF file" :=
  ⟨by decide,
    c2_extraction_failures_wrapped.1
      { okExtractorEnv with docx := fun _ => .error "Corrupt DOCX" }
      "uploads/doc.docx" "doc.docx" "Corrupt DOCX" (by decide) rfl,
    c2_extraction_failures_wrapped.2
      { okExtractorEnv with rtf := fun _ => .error "Invalid RTF file" }
      "uploads/doc.rtf" "doc.rtf" "Invalid RTF file" (by decide) rfl⟩

/-- C2 counterexample: the claim's "failure of the RTF stream parser is
re-raised in this wrapped form" is false — the `.rtf` case's promise is
returned without `await`, so the parser's raw error message reaches the
caller unchanged, not in the uniform wrapped form. -/
theorem c2_rtf_raw_error_counterexample :
    extractTextFromFile
      { okExtractorEnv with rtf := fun _ => .error "Invalid RTF file" }
      "uploads/doc.rtf" "doc.rtf" = .error "Invalid RTF file" ∧
    ("Invalid RTF file" : String) ≠
      "Failed to extract text from .rtf file: Invalid RTF file" :=
  ⟨rfl, by decide⟩

/-! ### Claim C5 -/

/-- C5: `parseDocumentDate` tries the underscore pattern, then six
consecutive digits, then the dotted pattern; the first match yields
`new Date(2000+YY, MM-1, DD)`; both example filenames parse to
August 10, 2022 (month index 7), and a filename matching no pattern
yields the current date. -/
theorem c5_parse_document_date :
    (∀ now, parseDocumentDate now "22_08_10_Shares_Pitch.docx" =
      { year := 2022, month := 7, day := 10 }) ∧
    (∀ now, parseDocumentDate now "220810_Notes.rtf" =
      { year := 2022, month := 7, day := 10 }) ∧
    (∀ now filename yy mm dd,
      scanDate (some '_') filename.data = some (yy, mm, dd) →
      parseDocumentDate now filename =
        { year := 2000 + (yy : Int), month := (mm : Int) - 1, day := (dd : Int) }) ∧
    (∀ now filename yy mm dd,
      scanDate (some '_') filename.data = none →
      scanDate none filename.data = some (yy, mm, dd) →
      parseDocumentDate now filename =
        { year := 2000 + (yy : Int), month := (mm : Int) - 1, day := (dd : Int) }) ∧
    (∀ now filename yy mm dd,
      scanDate (some '_') filename.data = none →
      scanDate none filename.data = none →
      scanDate (some '.') filename.data = some (yy, mm, dd) →
      parseDocumentDate now filename =
        { year := 2000 + (yy : Int), month := (mm : Int) - 1, day := (dd : Int) }) ∧
    (∀ now filename,
      scanDate (some '_') filename.data = none →
      scanDate none filename.data = none →
      scanDate (some '.') filename.data = none →
      parseDocumentDate now filename = now) := by
  refine ⟨fun now => rfl, fun now => rfl, ?_, ?_, ?_, ?_⟩
  · intro now filename yy mm dd h1
    simp only [parseDocumentDate, h1]
  · intro now filename yy mm dd h1 h2
    simp only [parseDocumentDate, h1, h2]
  · intro now filename yy mm dd h1 h2 h3
    simp only [parseDocumentDate, h1, h2, h3]
  · intro now filename h1 h2 h3
    simp only [parseDocumentDate, h1, h2, h3]

/-- C5 witness: a filename with no date pattern falls back to the
current date. -/
theorem c5_parse_document_date_witness :
    scanDate (some '_') "no-date.docx".data = none ∧
    scanDate none "no-date.docx".data = none ∧
    scanDate (some '.') "no-date.docx".data = none ∧
    parseDocumentDate { year := 2026, month := 9, day := 12 } "no-date.docx" =
      { year := 2026, month := 9, day := 12 } :=
  ⟨by decide, by decide, by decide,
    c5_parse_document_date.2.2.2.2.2 { year := 2026, month := 9, day := 12 } "no-date.docx"
      (by decide) (by decide) (by decide)⟩

/-! ### Claim C3 -/

lemma selectPromptConfig_other (p : AiPrompts) (t : String)
    (h1 : t ≠ "notes") (h2 : t ≠ "beatSheet") (h3 : t ≠ "sessionNotes")
    (h4 : t ≠ "quickNote") :
    selectPromptConfig p t = p.default.getD DEFAULT_AI_PROMPTS.default := by
  unfold selectPromptConfig
  simp [h1, h2, h3, h4]

/-- C3: the model used for the content-analysis request (and attached
to the analysis as `model`, then recorded on the document as `aiModel`)
is always the one stored in the selected prompt slot's configuration —
notes slot for `notes`, beatSheet slot for `beatSheet`, sessionNotes
slot for `sessionNotes`/`quickNote`, default slot otherwise — never
the caller-supplied model argument, which influences at most the
type-classification pre-step. -/
theorem c3_analysis_model_from_prompt_slot :
    (∀ (env : GatewayEnv) (settings : Option AiPrompts)
        (text filename documentType model : String),
      ((analyzeContentWithAI env settings text filename documentType model).detectedType =
          "notes" →
        (analyzeContentWithAI env settings text filename documentType model).model =
          ((effectivePrompts settings).notes.getD DEFAULT_AI_PROMPTS.notes).model) ∧
      ((analyzeContentWithAI env settings text filename documentType model).detectedType =
          "beatSheet" →
        (analyzeContentWithAI env settings text filename documentType model).model =
          ((effectivePrompts settings).beatSheet.getD DEFAULT_AI_PROMPTS.beatSheet).model) ∧
      ((analyzeContentWithAI env settings text filename documentType model).detectedType =
            "sessionNotes" ∨
        (analyzeContentWithAI env settings text filename documentType model).detectedType =
            "quickNote" →
        (analyzeContentWithAI env settings text filename documentType model).model =
          ((effectivePrompts settings).sessionNotes.getD DEFAULT_AI_PROMPTS.sessionNotes).model) ∧
      ((analyzeContentWithAI env settings text filename documentType model).detectedType ∉
          (["notes", "beatSheet", "sessionNotes", "quickNote"] : List String) →
        (analyzeContentWithAI env settings text filename documentType model).model =
          ((effectivePrompts settings).default.getD DEFAULT_AI_PROMPTS.default).model)) ∧
    (∀ (env : GatewayEnv) (settings : Option AiPrompts)
        (text filename documentType m₁ m₂ : String),
      documentType ≠ "unclassified" →
      analyzeContentWithAI env settings text filename documentType m₁ =
        analyzeContentWithAI env settings text filename documentType m₂) ∧
    (∀ (document : Document) (aiAnalysis : AIAnalysisOut),
      (applyAnalysis document aiAnalysis).aiModel = some aiAnalysis.model) ∧
    (∀ (env : GatewayEnv) (xenv : ExtractorEnv) (settings : Option AiPrompts)
        (docs : List Document) (docId : String) (bodyModel : Option String)
        (document : Document) (text : String) (newDoc : Document),
      docs.find? (fun d => d.id == docId) = some document →
      extractTextFromFile xenv document.filePath document.filename = .ok text →
      (analyzeDocumentHandler env xenv settings (some docs) docId bodyModel).1 = .ok newDoc →
      newDoc.aiModel = some (analyzeContentWithAI env settings text document.filename
        document.type (jsOrDefault bodyModel "openai/gpt-4o")).model) := by
  have hmodel : ∀ (env : GatewayEnv) (settings : Option AiPrompts)
      (text filename documentType model : String),
      (analyzeContentWithAI env settings text filename documentType model).model =
        (selectPromptConfig (effectivePrompts settings)
          (analyzeContentWithAI env settings text filename documentType model).detectedType).model :=
    fun env settings text filename documentType model => rfl
  refine ⟨?_, ?_, ?_, ?_⟩
  · intro env settings text filename documentType model
    refine ⟨?_, ?_, ?_, ?_⟩
    · intro h
      rw [hmodel, h]
      rfl
    · intro h
      rw [hmodel, h]
      rfl
    · rintro (h | h) <;> rw [hmodel, h] <;> rfl
    · intro h
      simp only [List.mem_cons, List.not_mem_nil, or_false, not_or] at h
      obtain ⟨h1, h2, h3, h4⟩ := h
      rw [hmodel, selectPromptConfig_other _ _ h1 h2 h3 h4]
  · intro env settings text filename documentType m₁ m₂ h
    have hne : (documentType == "unclassified") = false := by simpa using h
    unfold analyzeContentWithAI
    simp only [hne, Bool.false_eq_true, if_false]
  · intro document aiAnalysis
    rfl
  · intro env xenv settings docs docId bodyModel document text newDoc hfind hext hresp
    simp only [analyzeDocumentHandler, hfind, hext] at hresp
    cases hresp
    rfl

/-- C3 witness: with no project override and a document already typed
`notes`, the request model is the notes slot's configured model,
regardless of the caller asking for `caller/model`. -/
theorem c3_analysis_model_from_prompt_slot_witness :
    (analyzeContentWithAI trivialGatewayEnv none "text" "f.docx" "notes" "caller/model").model =
      "openai/gpt-4o" := by
  have h :=
    (c3_analysis_model_from_prompt_slot.1 trivialGatewayEnv none "text" "f.docx" "notes"
      "caller/model").1 (by rfl)
  exact h.trans rfl

/-! ### Claim C4 -/

/-- C4 (amended): on `DELETE /api/documents/:id/characters`, a missing
(or empty) character name yields 400; a found document whose record has
no `characters` field at all yields 400 ("No characters found"); for a
found document with a `characters` list, the name is filtered out of
the list (a no-op when the name is not present), the store is saved with
the updated document, and a success response with the updated list is
returned — in particular a present name is removed.  (The claim's
"name not present among the characters yields 400" is false: that case
returns success, see the counterexample.) -/
theorem c4_remove_character_behaviour :
    (∀ (store : Option (List Document)) (docId : String) (body : Option String),
      jsFalsyStr body = true →
      (removeCharacterHandler store docId body).1 = .badRequest "Character name required") ∧
    (∀ (docs : List Document) (docId : String) (document : Document) (c : String),
      docs.find? (fun d => d.id == docId) = some document →
      jsFalsyStr (some c) = false →
      document.characters = none →
      (removeCharacterHandler (some docs) docId (some c)).1 =
        .badRequest "No characters found") ∧
    (∀ (docs : List Document) (docId : String) (document : Document)
        (cs : List String) (c : String),
      docs.find? (fun d => d.id == docId) = some document →
      jsFalsyStr (some c) = false →
      document.characters = some cs →
      (removeCharacterHandler (some docs) docId (some c)).1 =
          .ok (cs.filter (fun x => !(x == c))) ∧
        (removeCharacterHandler (some docs) docId (some c)).2 =
          some (replaceFirst (fun d => d.id == docId)
            { document with characters := some (cs.filter (fun x => !(x == c))) } docs) ∧
        c ∉ cs.filter (fun x => !(x == c))) := by
  refine ⟨?_, ?_, ?_⟩
  · intro store docId body hb
    unfold removeCharacterHandler
    rw [if_pos hb]
  · intro docs docId document c hfind hc hchars
    unfold removeCharacterHandler
    rw [if_neg (by simp [hc])]
    simp only [hfind, hchars]
  · intro docs docId document cs c hfind hc hchars
    have hmem : c ∉ cs.filter (fun x => !(x == c)) := by
      intro hmem
      have := (List.mem_filter.mp hmem).2
      simp at this
    refine ⟨?_, ?_, hmem⟩
    · unfold removeCharacterHandler
      rw [if_neg (by simp [hc])]
      simp only [hfind, hchars, Option.getD_some]
    · unfold removeCharacterHandler
      rw [if_neg (by simp [hc])]
      simp only [hfind, hchars, Option.getD_some]

/-- C4 witness: removing a present name succeeds, persists the
filtered list, and the name is gone afterwards. -/
theorem c4_remove_character_behaviour_witness :
    (removeCharacterHandler (some [sampleDoc "1" 5 (some ["Alice", "Bob"]) (some [])])
        "1" (some "Bob")).1 = .ok ["Alice"] ∧
    "Bob" ∉ (["Alice", "Bob"].filter (fun x => !(x == "Bob"))) := by
  have h := c4_remove_character_behaviour.2.2
    [sampleDoc "1" 5 (some ["Alice", "Bob"]) (some [])] "1"
    (sampleDoc "1" 5 (some ["Alice", "Bob"]) (some [])) ["Alice", "Bob"] "Bob"
    (by decide) (by decide) (by decide)
  exact ⟨h.1.trans (by decide), h.2.2⟩

/-- C4 counterexample: a removal request naming a character that is not
present among the document's characters does not yield 400 — it
succeeds with the list unchanged. -/
theorem c4_absent_name_counterexample :
    (removeCharacterHandler (some [sampleDoc "1" 5 (some ["Alice"]) (some [])])
        "1" (some "Bob")).1 = CharEditResp.ok ["Alice"] ∧
    ("Bob" : String) ∉ (["Alice"] : List String) := by
  exact ⟨by decide, by decide⟩

/-! ### Claim C6 -/

lemma length_filter_not_contains (t1 t2 : List String) (h2 : t2.Nodup) :
    (t2.filter (fun x => !(t1.contains x))).length = (t2.toFinset \ t1.toFinset).card := by
  have hnodup := h2.filter (fun x => !(t1.contains x))
  rw [← List.toFinset_card_of_nodup hnodup, List.toFinset_filter]
  congr 1
  ext x
  simp [Finset.mem_sdiff]

lemma length_filter_contains (t1 t2 : List String) (h1 : t1.Nodup) :
    (t1.filter (fun x => t2.contains x)).length = (t1.toFinset ∩ t2.toFinset).card := by
  have hnodup := h1.filter (fun x => t2.contains x)
  rw [← List.toFinset_card_of_nodup hnodup, List.toFinset_filter]
  congr 1
  ext x
  simp [Finset.mem_inter]

/-- `Math.round((a / b) * 100)` for naturals, as computed by the
embedding, equals exact rational round-half-up. -/
lemma jsRound_formula (a b : Nat) (hb : 0 < b) :
    (200 * a + b) / (2 * b) = ⌊((a : ℚ) / (b : ℚ)) * 100 + 1/2⌋₊ := by
  have hb' : (0 : ℚ) < (b : ℚ) := by exact_mod_cast hb
  have hbne : (b : ℚ) ≠ 0 := ne_of_gt hb'
  have key : ((a : ℚ) / (b : ℚ)) * 100 + 1/2 = ((200 * a + b : ℕ) : ℚ) / ((2 * b : ℕ) : ℚ) := by
    push_cast
    field_simp
    ring
  rw [key, Nat.floor_div_nat, Nat.floor_natCast]

/-- C6: the thematic-shift statistics — `added`/`removed`/`unchanged`
are the cardinalities of the respective set differences/intersection of
the two theme sets, `totalChange = added + removed`, `netChange` is the
difference of theme counts, and `shiftPercentage` is the rounded
percentage `round(totalChange / |doc1 themes| * 100)` (0 when doc1 has
no themes); on `[a,b,c]` vs `[b,c,d]` the shift percentage is 67. -/
theorem c6_thematic_shift_statistics :
    (∀ t1 t2 : List String, t1.Nodup → t2.Nodup →
      (thematicShift t1 t2).added = (t2.toFinset \ t1.toFinset).card ∧
      (thematicShift t1 t2).removed = (t1.toFinset \ t2.toFinset).card ∧
      (thematicShift t1 t2).unchanged = (t1.toFinset ∩ t2.toFinset).card ∧
      (thematicShift t1 t2).totalChange =
        (thematicShift t1 t2).added + (thematicShift t1 t2).removed ∧
      (thematicShift t1 t2).netChange = (t2.length : Int) - (t1.length : Int) ∧
      (0 < t1.length →
        (thematicShift t1 t2).shiftPercentage =
          ⌊(((thematicShift t1 t2).totalChange : ℚ) / (t1.length : ℚ)) * 100 + 1/2⌋₊) ∧
      (t1.length = 0 → (thematicShift t1 t2).shiftPercentage = 0)) ∧
    thematicShift ["a", "b", "c"] ["b", "c", "d"] =
      { added := 1, removed := 1, unchanged := 2, totalChange := 2, netChange := 0,
        shiftPercentage := 67 } := by
  refine ⟨?_, by decide⟩
  intro t1 t2 h1 h2
  refine ⟨length_filter_not_contains t1 t2 h2, length_filter_not_contains t2 t1 h1,
    length_filter_contains t1 t2 h1, rfl, rfl, ?_, ?_⟩
  · intro hlen
    have hval : (thematicShift t1 t2).shiftPercentage =
        (200 * ((t2.filter (fun t => !(t1.contains t))).length +
          (t1.filter (fun t => !(t2.contains t))).length) + t1.length) /
          (2 * t1.length) := by
      simp only [thematicShift]
      rw [if_pos hlen]
    rw [hval, jsRound_formula _ _ hlen]
    rfl
  · intro hlen
    simp only [thematicShift]
    rw [if_neg (by omega)]

/-- C6 witness: the statistics of the `[a,b,c]` vs `[b,c,d]`
comparison match the set-theoretic description. -/
theorem c6_thematic_shift_statistics_witness :
    (thematicShift ["a", "b", "c"] ["b", "c", "d"]).added =
      ((["b", "c", "d"] : List String).toFinset \
        (["a", "b", "c"] : List String).toFinset).card ∧
    (thematicShift ["a", "b", "c"] ["b", "c", "d"]).shiftPercentage =
      ⌊(((thematicShift ["a", "b", "c"] ["b", "c", "d"]).totalChange : ℚ) /
        ((["a", "b", "c"] : List String).length : ℚ)) * 100 + 1/2⌋₊ := by
  have h := c6_thematic_shift_statistics.1 ["a", "b", "c"] ["b", "c", "d"]
    (by decide) (by decide)
  exact ⟨h.1, h.2.2.2.2.2.1 (by decide)⟩

/-! ### Claim C7 -/

/-- C7: for two documents of a project with strictly ordered dates,
`GET /api/compare/A/B` and `GET /api/compare/B/A` produce the same
response — the handler swaps the pair so that `doc1` is the
chronologically earlier document before computing anything. -/
theorem c7_compare_order_invariant :
    ∀ (xenv : ExtractorEnv) (cenv : CompareEnv) (docs : List Document)
      (idA idB : String) (A B : Document),
      docs.find? (fun d => d.id == idA) = some A →
      docs.find? (fun d => d.id == idB) = some B →
      A.date < B.date →
      compareDocumentsHandler xenv cenv (some docs) idA idB =
        compareDocumentsHandler xenv cenv (some docs) idB idA := by
  intro xenv cenv docs idA idB A B hA hB hAB
  unfold compareDocumentsHandler
  dsimp only
  rw [hA, hB]
  have h1 : ¬(B.date < A.date) := by omega
  simp only [if_neg h1, if_pos hAB]

/-- C7 witness: swapping the ids of two concretely dated documents
yields the identical compare response. -/
theorem c7_compare_order_invariant_witness :
    compareDocumentsHandler okExtractorEnv trivialCompareEnv
        (some [sampleDoc "1" 10 (some []) (some []), sampleDoc "2" 20 (some []) (some [])])
        "1" "2" =
      compareDocumentsHandler okExtractorEnv trivialCompareEnv
        (some [sampleDoc "1" 10 (some []) (some []), sampleDoc "2" 20 (some []) (some [])])
        "2" "1" :=
  c7_compare_order_invariant okExtractorEnv trivialCompareEnv
    [sampleDoc "1" 10 (some []) (some []), sampleDoc "2" 20 (some []) (some [])]
    "1" "2" (sampleDoc "1" 10 (some []) (some [])) (sampleDoc "2" 20 (some []) (some []))
    (by decide) (by decide) (by decide)

/-! ### Claim C8 -/

/-- C8: every document record created by the current upload handler has
an empty characters list, whatever the text contains — the legacy regex
extractor plays no part in ingestion (by contrast, the legacy handler
populated `characters` with `extractCharacters`); characters are
populated only by AI analysis (`applyAnalysis`) or the manual
character endpoints. -/
theorem c8_upload_characters_empty :
    (∀ nowIso nowDate toMillis idStr storedName originalFilename text,
      (uploadDocument nowIso nowDate toMillis idStr storedName originalFilename
        text).characters = some []) ∧
    (∀ nowIso nowDate toMillis idStr storedName originalFilename text,
      (legacyUploadDocument nowIso nowDate toMillis idStr storedName originalFilename
        text).characters = some (extractCharacters text)) ∧
    extractCharacters "BOB and MAX argue" = ["BOB", "MAX"] ∧
    (uploadDocument "" { year := 2026, month := 0, day := 1 } (fun _ => 0) "1" "s" "f.docx"
      "BOB and MAX argue").characters = some [] ∧
    (uploadDocument "" { year := 2026, month := 0, day := 1 } (fun _ => 0) "1" "s" "f.docx"
      "BOB and MAX argue").type = "unclassified" := by
  exact ⟨fun _ _ _ _ _ _ _ => rfl, fun _ _ _ _ _ _ _ => rfl, by decide, rfl, rfl⟩

/-! ### Claim C9 -/

/-- The taxonomy keys containing an upper-case letter: lower-casing can
never produce them. -/
def camelCaseTypeKeys : List String :=
  ["shortPitch", "beatSheet", "trimmedDraft", "seriesDoc", "characterBreakdown",
   "worldBuilding", "extraMaterials", "sessionNotes", "quickNote", "toAggregate",
   "forToday"]

lemma toNat_ofNat_valid (n : Nat) (h : n.isValidChar) : (Char.ofNat n).toNat = n := by
  rw [Char.ofNat, dif_pos h]
  rfl

lemma toLower_not_upper (c : Char) :
    ¬(65 ≤ (Char.toLower c).toNat ∧ (Char.toLower c).toNat ≤ 90) := by
  simp only [Char.toLower]
  by_cases h : c.toNat ≥ 65 ∧ c.toNat ≤ 90
  · rw [if_pos h]
    have hvalid : (c.toNat + 32).isValidChar := Or.inl (by omega)
    rw [toNat_ofNat_valid _ hvalid]
    omega
  · rw [if_neg h]
    omega

lemma jsToLower_ne_of_upper (k : String)
    (hk : k.data.any (fun c => 65 ≤ c.toNat && c.toNat ≤ 90) = true) :
    ∀ s, jsToLower s ≠ k := by
  intro s heq
  rw [← heq] at hk
  have hex : ∃ c ∈ s.data.map Char.toLower, (65 ≤ c.toNat && c.toNat ≤ 90) = true := by
    simpa [jsToLower] using hk
  obtain ⟨c, hc, hup⟩ := hex
  obtain ⟨c', _, rfl⟩ := List.mem_map.mp hc
  simp only [Bool.and_eq_true, decide_eq_true_eq] at hup
  exact toLower_not_upper c' hup

/-- C9 (amended): the validation step of `classifyDocumentWithAI`
returns the lower-cased, trimmed gateway reply when the property access
`DOCUMENT_TYPES[reply]` is truthy — i.e. when it is an own taxonomy key
or an inherited `Object.prototype` member such as `constructor` or
`__proto__` — and `pitch` otherwise; consequently no camel-case
taxonomy key can ever be the result of AI classification, while
`unclassified` — excluded from the prompt's offered type list — is
accepted when the model replies with it.  (The claim's unconditional
"`pitch` otherwise" is false for inherited property names, see the
counterexample.) -/
theorem c9_ai_classification_validation :
    (∀ reply, documentTypesHasProperty (jsToLower (jsTrim reply)) = true →
      aiDetectedType reply = jsToLower (jsTrim reply)) ∧
    (∀ reply, documentTypesHasProperty (jsToLower (jsTrim reply)) = false →
      aiDetectedType reply = "pitch") ∧
    (∀ reply key, key ∈ camelCaseTypeKeys → aiDetectedType reply ≠ key) ∧
    aiDetectedType "unclassified" = "unclassified" ∧
    "unclassified" ∉ promptTypeKeys ∧
    (∀ (env : GatewayEnv) (text filename model : String),
      classifyDocumentWithAI env text filename model =
        aiDetectedType (env.complete model (classifyPromptText filename text))) := by
  refine ⟨?_, ?_, ?_, by decide, by decide, fun _ _ _ _ => rfl⟩
  · intro reply h
    simp only [aiDetectedType]
    rw [if_pos h]
  · intro reply h
    simp only [aiDetectedType]
    rw [if_neg (by simp [h])]
  · intro reply key hkey heq
    have hfacts : ∀ k ∈ camelCaseTypeKeys,
        k.data.any (fun c => 65 ≤ c.toNat && c.toNat ≤ 90) = true ∧ k ≠ "pitch" := by
      decide
    obtain ⟨hup, hnp⟩ := hfacts key hkey
    simp only [aiDetectedType] at heq
    by_cases hc : documentTypesHasProperty (jsToLower (jsTrim reply)) = true
    · rw [if_pos hc] at heq
      exact jsToLower_ne_of_upper key hup (jsTrim reply) heq
    · rw [if_neg hc] at heq
      exact hnp heq.symm

/-- C9 witness: the camel-case reply `beatSheet` is lower-cased to a
non-property and therefore falls back to `pitch` — it can never survive
validation. -/
theorem c9_ai_classification_validation_witness :
    aiDetectedType "beatSheet" = "pitch" ∧ aiDetectedType "beatSheet" ≠ "beatSheet" :=
  ⟨c9_ai_classification_validation.2.1 "beatSheet" (by decide),
    c9_ai_classification_validation.2.2.1 "beatSheet" "beatSheet" (by decide)⟩

/-- C9 counterexample: the claim's "returns `pitch` otherwise" is false
— the reply `constructor` is not a taxonomy key, yet the property
access `DOCUMENT_TYPES["constructor"]` finds the inherited
`Object.prototype.constructor` (truthy), so validation returns
`constructor` verbatim instead of falling back to `pitch`. -/
theorem c9_prototype_property_counterexample :
    aiDetectedType "constructor" = "constructor" ∧
    (DOCUMENT_TYPES.lookup "constructor").isSome = false ∧
    ("constructor" : String) ≠ "pitch" := by
  exact ⟨by decide, by decide, by decide⟩

/-! ### Claim C10 -/

lemma mem_insertSorted (le : α → α → Bool) (x y : α) (l : List α) :
    y ∈ insertSorted le x l ↔ y = x ∨ y ∈ l := by
  induction l with
  | nil => simp [insertSorted]
  | cons z rest ih =>
    simp only [insertSorted]
    split
    · simp [List.mem_cons]
    · simp only [List.mem_cons, ih]
      tauto

lemma length_insertSorted (le : α → α → Bool) (x : α) (l : List α) :
    (insertSorted le x l).length = l.length + 1 := by
  induction l with
  | nil => rfl
  | cons z rest ih =>
    simp only [insertSorted]
    split
    · simp
    · simp [ih]

lemma length_jsSortBy (le : α → α → Bool) (l : List α) :
    (jsSortBy le l).length = l.length := by
  induction l with
  | nil => rfl
  | cons x rest ih => simp [jsSortBy, length_insertSorted, ih]

lemma mem_jsSortBy (le : α → α → Bool) (y : α) (l : List α) :
    y ∈ jsSortBy le l ↔ y ∈ l := by
  induction l with
  | nil => simp [jsSortBy]
  | cons x rest ih => simp [jsSortBy, mem_insertSorted, ih]

lemma pairwise_insertSorted (le : α → α → Bool)
    (htrans : ∀ a b c, le a b = true → le b c = true → le a c = true)
    (htotal : ∀ a b, le a b = true ∨ le b a = true)
    (x : α) (l : List α) (h : l.Pairwise (fun a b => le a b = true)) :
    (insertSorted le x l).Pairwise (fun a b => le a b = true) := by
  induction l with
  | nil => simp [insertSorted]
  | cons y rest ih =>
    obtain ⟨hy, hrest⟩ := List.pairwise_cons.mp h
    simp only [insertSorted]
    split
    · next hxy =>
      refine List.pairwise_cons.mpr ⟨?_, h⟩
      intro z hz
      rcases List.mem_cons.mp hz with rfl | hz
      · exact hxy
      · exact htrans x y z hxy (hy z hz)
    · next hxy =>
      have hyx : le y x = true := by
        rcases htotal x y with h' | h'
        · exact absurd h' hxy
        · exact h'
      refine List.pairwise_cons.mpr ⟨?_, ih hrest⟩
      intro z hz
      rcases (mem_insertSorted le x z rest).mp hz with rfl | hz
      · exact hyx
      · exact hy z hz

lemma pairwise_jsSortBy (le : α → α → Bool)
    (htrans : ∀ a b c, le a b = true → le b c = true → le a c = true)
    (htotal : ∀ a b, le a b = true ∨ le b a = true)
    (l : List α) : (jsSortBy le l).Pairwise (fun a b => le a b = true) := by
  induction l with
  | nil => simp [jsSortBy]
  | cons x rest ih => exact pairwise_insertSorted le htrans htotal x _ ih

lemma mem_of_mem_jsSetDedupAux (seen l : List String) (x : String)
    (hx : x ∈ jsSetDedupAux seen l) : x ∈ l := by
  induction l generalizing seen with
  | nil => simp [jsSetDedupAux] at hx
  | cons y rest ih =>
    simp only [jsSetDedupAux] at hx
    split at hx
    · exact List.mem_cons_of_mem _ (ih _ hx)
    · rcases List.mem_cons.mp hx with rfl | hx
      · exact List.mem_cons_self _ _
      · exact List.mem_cons_of_mem _ (ih _ hx)

lemma find?_eq_head?_filter (p : α → Bool) (l : List α) :
    l.find? p = (l.filter p).head? := by
  induction l with
  | nil => rfl
  | cons x rest ih =>
    by_cases h : p x
    · rw [List.find?_cons_of_pos _ h, List.filter_cons_of_pos h, List.head?_cons]
    · rw [List.find?_cons_of_neg _ h, List.filter_cons_of_neg h, ih]

lemma reverse_find?_eq_getLast?_filter (p : α → Bool) (l : List α) :
    l.reverse.find? p = (l.filter p).getLast? := by
  rw [find?_eq_head?_filter, List.filter_reverse, List.head?_reverse]

lemma docDateLe_trans : ∀ a b c : Document,
    docDateLe a b = true → docDateLe b c = true → docDateLe a c = true := by
  intro a b c
  simp only [docDateLe, decide_eq_true_eq]
  omega

lemma docDateLe_total : ∀ a b : Document, docDateLe a b = true ∨ docDateLe b a = true := by
  intro a b
  simp only [docDateLe, decide_eq_true_eq]
  omega

lemma storyGridCharacterRow_ok (documents : List Document) (c : String)
    (hc : ∃ d ∈ documents, c ∈ d.characters.getD []) :
    characterRowOk documents.length
      (storyGridCharacterRow (jsSortBy docDateLe documents) c) := by
  obtain ⟨d, hd, hcd⟩ := hc
  have hdsorted : d ∈ jsSortBy docDateLe documents := (mem_jsSortBy _ _ _).mpr hd
  have happ : mkCharAppearance c d ∈
      (jsSortBy docDateLe documents).map (mkCharAppearance c) :=
    List.mem_map_of_mem _ hdsorted
  have hpres : (mkCharAppearance c d).present = true := by
    simpa [mkCharAppearance] using hcd
  have hmemfilter : mkCharAppearance c d ∈
      ((jsSortBy docDateLe documents).map (mkCharAppearance c)).filter
        (fun a => a.present) :=
    List.mem_filter.mpr ⟨happ, hpres⟩
  have hfilter_ne :
      ((jsSortBy docDateLe documents).map (mkCharAppearance c)).filter
        (fun a => a.present) ≠ [] :=
    List.ne_nil_of_mem hmemfilter
  refine ⟨?_, ?_, ?_, ?_, ?_, ?_, ?_⟩
  · simp [storyGridCharacterRow, length_jsSortBy]
  · simp only [storyGridCharacterRow]
    rw [List.pairwise_map]
    exact (pairwise_jsSortBy docDateLe docDateLe_trans docDateLe_total documents).imp
      (fun h => by simpa [docDateLe] using h)
  · simp only [storyGridCharacterRow]
    exact List.length_pos_of_mem hmemfilter
  · simp only [storyGridCharacterRow, find?_eq_head?_filter]
  · simp only [storyGridCharacterRow, find?_eq_head?_filter]
    intro hnone
    rw [Option.map_eq_none', List.head?_eq_none_iff] at hnone
    exact hfilter_ne hnone
  · simp only [storyGridCharacterRow, reverse_find?_eq_getLast?_filter]
  · simp only [storyGridCharacterRow, reverse_find?_eq_getLast?_filter]
    intro hnone
    rw [Option.map_eq_none', List.getLast?_eq_none_iff] at hnone
    exact hfilter_ne hnone

lemma storyGridThemeRow_ok (documents : List Document) (t : String)
    (ht : ∃ d ∈ documents, t ∈ d.themes.getD []) :
    themeRowOk documents.length
      (storyGridThemeRow (jsSortBy docDateLe documents) t) := by
  obtain ⟨d, hd, htd⟩ := ht
  have hdsorted : d ∈ jsSortBy docDateLe documents := (mem_jsSortBy _ _ _).mpr hd
  have happ : mkThemeAppearance t d ∈
      (jsSortBy docDateLe documents).map (mkThemeAppearance t) :=
    List.mem_map_of_mem _ hdsorted
  have hpres : (mkThemeAppearance t d).present = true := by
    simpa [mkThemeAppearance] using htd
  have hmemfilter : mkThemeAppearance t d ∈
      ((jsSortBy docDateLe documents).map (mkThemeAppearance t)).filter
        (fun a => a.present) :=
    List.mem_filter.mpr ⟨happ, hpres⟩
  have hfilter_ne :
      ((jsSortBy docDateLe documents).map (mkThemeAppearance t)).filter
        (fun a => a.present) ≠ [] :=
    List.ne_nil_of_mem hmemfilter
  refine ⟨?_, ?_, ?_, ?_, ?_, ?_, ?_⟩
  · simp [storyGridThemeRow, length_jsSortBy]
  · simp only [storyGridThemeRow]
    rw [List.pairwise_map]
    exact (pairwise_jsSortBy docDateLe docDateLe_trans docDateLe_total documents).imp
      (fun h => by simpa [docDateLe] using h)
  · simp only [storyGridThemeRow]
    exact List.length_pos_of_mem hmemfilter
  · simp only [storyGridThemeRow, find?_eq_head?_filter]
  · simp only [storyGridThemeRow, find?_eq_head?_filter]
    intro hnone
    rw [Option.map_eq_none', List.head?_eq_none_iff] at hnone
    exact hfilter_ne hnone
  · simp only [storyGridThemeRow, reverse_find?_eq_getLast?_filter]
  · simp only [storyGridThemeRow, reverse_find?_eq_getLast?_filter]
    intro hnone
    rw [Option.map_eq_none', List.getLast?_eq_none_iff] at hnone
    exact hfilter_ne hnone

/-- C10: every row of the story grid's character and theme matrices has
exactly one appearance entry per project document, in ascending date
order; every row's key comes from some document's own list, so
`totalAppearances ≥ 1` and `firstAppearance`/`lastAppearance` are
non-null and equal the dates of the earliest/latest present entries. -/
theorem c10_story_grid_rows :
    ∀ documents : List Document,
      (∀ row ∈ (storyGridHandler (some documents)).characterGrid,
        characterRowOk documents.length row) ∧
      (∀ row ∈ (storyGridHandler (some documents)).themeGrid,
        themeRowOk documents.length row) := by
  intro documents
  constructor
  · intro row hrow
    simp only [storyGridHandler] at hrow
    obtain ⟨c, hc, rfl⟩ := List.mem_map.mp hrow
    have h1 : c ∈ jsSetDedup (documents.flatMap (fun d => d.characters.getD [])) := by
      simpa [sortedStrings, mem_jsSortBy] using hc
    have h2 := mem_of_mem_jsSetDedupAux [] _ c h1
    exact storyGridCharacterRow_ok documents c (List.mem_flatMap.mp h2)
  · intro row hrow
    simp only [storyGridHandler] at hrow
    obtain ⟨t, ht, rfl⟩ := List.mem_map.mp hrow
    have h1 : t ∈ jsSetDedup (documents.flatMap (fun d => d.themes.getD [])) := by
      simpa [sortedStrings, mem_jsSortBy] using ht
    have h2 := mem_of_mem_jsSetDedupAux [] _ t h1
    exact storyGridThemeRow_ok documents t (List.mem_flatMap.mp h2)

/-- C10 witness: in a concrete one-document project the character and
theme rows satisfy the asserted shape. -/
theorem c10_story_grid_rows_witness :
    characterRowOk 1 (storyGridCharacterRow
      (jsSortBy docDateLe [sampleDoc "1" 5 (some ["Ann"]) (some ["love"])]) "Ann") ∧
    themeRowOk 1 (storyGridThemeRow
      (jsSortBy docDateLe [sampleDoc "1" 5 (some ["Ann"]) (some ["love"])]) "love") :=
  ⟨(c10_story_grid_rows [sampleDoc "1" 5 (some ["Ann"]) (some ["love"])]).1
      (storyGridCharacterRow
        (jsSortBy docDateLe [sampleDoc "1" 5 (some ["Ann"]) (some ["love"])]) "Ann")
      (by decide),
    (c10_story_grid_rows [sampleDoc "1" 5 (some ["Ann"]) (some ["love"])]).2
      (storyGridThemeRow
        (jsSortBy docDateLe [sampleDoc "1" 5 (some ["Ann"]) (some ["love"])]) "love")
      (by decide)⟩

end Larga
